import Mathlib

/-!
Verification of the `wolfi-backend` HTTP API handlers
(`src/pages/api/evaluateAnswer.ts`, `src/pages/api/generateExercise.ts`).

Both source files contain several drifted variants of the same endpoint,
separated by document markers.  We embed each variant as a total Lean
function.  JavaScript numbers are idealised as exact rationals extended
with `NaN` and the two infinities; none of the operations the handlers
perform on numbers (comparison, floor, round, min, max) involve floating
point rounding, so this idealisation is exact on the behaviours the
handlers exercise.  External effects (the image fetch, the LLM completion
call, the Supabase lookup, the environment) are passed in as explicit
oracle inputs, and each handler result records whether the image fetch
and the completion call were actually performed.
-/

namespace Wolfi

/-- A JavaScript number: an exact rational, `NaN`, or an infinity. -/
inductive JSNum where
  | nan
  | inf
  | negInf
  | fin (q : ℚ)
deriving DecidableEq

/-- A JSON-representable JavaScript runtime value (plus `undefined`). -/
inductive JSValue where
  | undefined
  | null
  | bool (b : Bool)
  | num (n : JSNum)
  | str (s : String)
  | arr (xs : List JSValue)
  | obj (fields : List (String × JSValue))

/-- JavaScript `<` on numbers: any comparison involving `NaN` is false. -/
def jsLt : JSNum → JSNum → Bool
  | .nan, _ => false
  | _, .nan => false
  | .negInf, .negInf => false
  | .negInf, _ => true
  | _, .negInf => false
  | .inf, _ => false
  | _, .inf => true
  | .fin a, .fin b => decide (a < b)

/-- `Math.floor` (identity on `NaN` and the infinities). -/
def jsFloor : JSNum → JSNum
  | .fin q => .fin (Rat.floor q : ℚ)
  | n => n

/-- `Math.round`: round half toward positive infinity, i.e. `⌊x + 1/2⌋`. -/
def jsRound : JSNum → JSNum
  | .fin q => .fin (Rat.floor (q + 1/2) : ℚ)
  | n => n

/-- `Math.max` on two numbers (`NaN` is absorbing). -/
def jsMax : JSNum → JSNum → JSNum
  | .nan, _ => .nan
  | _, .nan => .nan
  | .inf, _ => .inf
  | _, .inf => .inf
  | .negInf, b => b
  | a, .negInf => a
  | .fin a, .fin b => .fin (max a b)

/-- `Math.min` on two numbers (`NaN` is absorbing). -/
def jsMin : JSNum → JSNum → JSNum
  | .nan, _ => .nan
  | _, .nan => .nan
  | .negInf, _ => .negInf
  | _, .negInf => .negInf
  | .inf, b => b
  | a, .inf => a
  | .fin a, .fin b => .fin (min a b)

/-- `Number.isFinite` on an already-numeric value. -/
def jsFinite : JSNum → Bool
  | .fin _ => true
  | _ => false

/-- Strict equality `===` between a number and a numeric literal. -/
def numEqLit (n : JSNum) (q : ℚ) : Bool :=
  match n with
  | .fin a => a == q
  | _ => false

/-- Falsiness of a number: `NaN` and `0` are falsy. -/
def numFalsy : JSNum → Bool
  | .nan => true
  | .fin q => q == 0
  | _ => false

/-- JavaScript falsiness of a value. -/
def jsFalsy : JSValue → Bool
  | .undefined => true
  | .null => true
  | .bool b => !b
  | .num n => numFalsy n
  | .str s => s == ""
  | .arr _ => false
  | .obj _ => false

/-- JavaScript `a || b`: `b` when `a` is falsy, else `a`. -/
def jsOr (a b : JSValue) : JSValue := if jsFalsy a then b else a

/-- `Number.isNaN`: true only for the actual `NaN` value, no coercion. -/
def numberIsNaN : JSValue → Bool
  | .num .nan => true
  | _ => false

/-- Strict equality `===` between an arbitrary value and a string literal. -/
def jsStrictEqStr (v : JSValue) (s : String) : Bool :=
  match v with
  | .str t => t == s
  | _ => false

/-- Whitespace for `String.prototype.trim` and the regex class `\s`
(the ASCII members plus NBSP, the line separators and the BOM). -/
def jsWsChar (c : Char) : Bool :=
  c == ' ' || c == '\t' || c == '\n' || c == '\r' ||
  c == Char.ofNat 11 || c == Char.ofNat 12 || c == Char.ofNat 160 ||
  c == Char.ofNat 8232 || c == Char.ofNat 8233 || c == Char.ofNat 65279

/-- `String.prototype.trim`. -/
def jsTrim (s : String) : String :=
  String.mk (((s.toList.dropWhile jsWsChar).reverse.dropWhile jsWsChar).reverse)

/-- Does `pat` occur as a contiguous run inside `l`? -/
def hasInfixRun (pat : List Char) : List Char → Bool
  | [] => pat.isEmpty
  | c :: rest => pat.isPrefixOf (c :: rest) || hasInfixRun pat rest

/-- `String.prototype.includes` with a string argument. -/
def strIncludes (s pat : String) : Bool :=
  hasInfixRun pat.toList s.toList

/-- `String.prototype.toLowerCase` (ASCII case mapping). -/
def jsToLower (s : String) : String := s.toLower

/-- Digits of a natural number, as a string. -/
def natDigits (n : Nat) : String := Nat.repr n

/-- Up to 30 fractional digits of `0 ≤ q < 1`, trailing zeros removed.
Decimal rendering of the exact-rational idealisation of a JS number. -/
def fracDigits (q : ℚ) : String :=
  let n : Nat := (Rat.floor (q * (10 : ℚ) ^ (30 : ℕ))).toNat
  let raw := natDigits n
  let padded := String.mk (List.replicate (30 - raw.length) '0') ++ raw
  String.mk ((padded.toList.reverse.dropWhile (· == '0')).reverse)

/-- `q ≥ 0` rendered in decimal. -/
def nonnegRatToString (q : ℚ) : String :=
  let ip : Nat := (Rat.floor q).toNat
  let frac : ℚ := q - (Rat.floor q : ℚ)
  if frac == 0 then natDigits ip
  else natDigits ip ++ "." ++ fracDigits frac

/-- JS number-to-string (on the exact-rational idealisation). -/
def numToString : JSNum → String
  | .nan => "NaN"
  | .inf => "Infinity"
  | .negInf => "-Infinity"
  | .fin q => if q < 0 then "-" ++ nonnegRatToString (-q) else nonnegRatToString q

/-- Is the value `null` or `undefined`? -/
def isNullish : JSValue → Bool
  | .undefined => true
  | .null => true
  | _ => false

/-- JS `ToString`, with explicit fuel (an array's `toString` is
`join(",")`, where `null`/`undefined` elements render as `""`). -/
def jsToStringF : Nat → JSValue → String
  | 0, _ => ""
  | _, .undefined => "undefined"
  | _, .null => "null"
  | _, .bool b => if b then "true" else "false"
  | _, .num n => numToString n
  | _, .str s => s
  | _, .obj _ => "[object Object]"
  | f + 1, .arr xs =>
      String.intercalate "," (xs.map fun v =>
        if isNullish v then "" else jsToStringF f v)

mutual

/-- Nesting depth of a value (strict bound for the `jsToStringF` fuel). -/
def jsDepth : JSValue → Nat
  | .arr xs => jsDepthList xs + 1
  | .obj fs => jsDepthFields fs + 1
  | _ => 1

/-- Maximal depth of the elements of a list. -/
def jsDepthList : List JSValue → Nat
  | [] => 0
  | v :: rest => max (jsDepth v) (jsDepthList rest)

/-- Maximal depth of the values of an association list. -/
def jsDepthFields : List (String × JSValue) → Nat
  | [] => 0
  | (_, v) :: rest => max (jsDepth v) (jsDepthFields rest)

end

/-- JS `ToString` (`jsDepth` bounds the nesting depth, so the fuel
never runs out). -/
def jsToString (v : JSValue) : String := jsToStringF (jsDepth v) v

/-- Split off a maximal run of decimal digits. -/
def takeDigits (cs : List Char) : List Char × List Char :=
  (cs.takeWhile Char.isDigit, cs.dropWhile Char.isDigit)

/-- Value of a digit run. -/
def digitsToNat (ds : List Char) : Nat :=
  ds.foldl (fun a c => a * 10 + (c.toNat - 48)) 0

/-- Value of a hex digit, if any. -/
def hexVal (c : Char) : Option Nat :=
  if c.isDigit then some (c.toNat - 48)
  else if 'a' ≤ c && c ≤ 'f' then some (c.toNat - 87)
  else if 'A' ≤ c && c ≤ 'F' then some (c.toNat - 55)
  else none

/-- Parse an all-consuming digit run in base `b` (used for `0x`, `0o`, `0b`). -/
def readBaseDigits (b : Nat) : List Char → Option Nat → Option Nat
  | [], acc => acc
  | c :: rest, acc =>
      match hexVal c with
      | some d =>
          if d < b then
            readBaseDigits b rest (some ((acc.getD 0) * b + d))
          else none
      | none => none

/-- An unsigned decimal literal (`digits`, `digits.digits`, `.digits`,
`digits.`), with an optional exponent, consuming the whole input. -/
def parseUnsignedDec (cs : List Char) : Option ℚ :=
  let (ip, r1) := takeDigits cs
  let (fp, r2) :=
    match r1 with
    | c :: rest => if c == '.' then takeDigits rest else ([], r1)
    | [] => ([], r1)
  if ip.isEmpty && fp.isEmpty then none
  else
    let mantissa : ℚ := (digitsToNat ip : ℚ) + (digitsToNat fp : ℚ) / (10 : ℚ) ^ fp.length
    match r2 with
    | [] => some mantissa
    | e :: rest =>
        if e == 'e' || e == 'E' then
          let (sgn, ds) :=
            match rest with
            | '+' :: t => (1, t)
            | '-' :: t => (-1, t)
            | t => (1, t)
          let (ed, tail) := takeDigits ds
          if ed.isEmpty || !tail.isEmpty then none
          else some (mantissa * (10 : ℚ) ^ ((sgn : ℤ) * (digitsToNat ed : ℤ)))
        else none

/-- The tail of `Number(string)` after an optional sign:
`Infinity` or a decimal literal. -/
def signedNumTail (cs : List Char) (neg : Bool) : Option JSNum :=
  if cs == "Infinity".toList then some (if neg then .negInf else .inf)
  else (parseUnsignedDec cs).map fun q => .fin (if neg then -q else q)

/-- `Number(string)` on the trimmed character list. -/
def strToNumberCore (cs : List Char) : Option JSNum :=
  match cs with
  | '0' :: 'x' :: rest => (readBaseDigits 16 rest none).map fun n => .fin (n : ℚ)
  | '0' :: 'X' :: rest => (readBaseDigits 16 rest none).map fun n => .fin (n : ℚ)
  | '0' :: 'o' :: rest => (readBaseDigits 8 rest none).map fun n => .fin (n : ℚ)
  | '0' :: 'O' :: rest => (readBaseDigits 8 rest none).map fun n => .fin (n : ℚ)
  | '0' :: 'b' :: rest => (readBaseDigits 2 rest none).map fun n => .fin (n : ℚ)
  | '0' :: 'B' :: rest => (readBaseDigits 2 rest none).map fun n => .fin (n : ℚ)
  | '+' :: rest => signedNumTail rest false
  | '-' :: rest => signedNumTail rest true
  | _ => signedNumTail cs false

/-- `Number(string)`: trim, empty means `0`, unparsable means `NaN`. -/
def strToNumber (s : String) : JSNum :=
  let t := jsTrim s
  if t == "" then .fin 0
  else (strToNumberCore t.toList).getD .nan

/-- JS `ToNumber`. -/
def jsToNumber : JSValue → JSNum
  | .undefined => .nan
  | .null => .fin 0
  | .bool b => .fin (if b then 1 else 0)
  | .num n => n
  | .str s => strToNumber s
  | .arr xs => strToNumber (jsToString (.arr xs))
  | .obj _ => .nan

/-- Property read `v[k]` on a non-nullish base: key lookup on objects
(later duplicate keys win, as after `JSON.parse`), `undefined` elsewhere.
Handlers branch on `null` separately, since a property read on `null`
throws a `TypeError`. -/
def getField (v : JSValue) (k : String) : JSValue :=
  match v with
  | .obj fs =>
      match fs.reverse.find? (fun p => p.1 == k) with
      | some p => p.2
      | none => .undefined
  | _ => .undefined

/-- `v.toString()`: throws (`none`) on `null`/`undefined`. -/
def jsToStringMethod : JSValue → Option String
  | .undefined => none
  | .null => none
  | v => some (jsToString v)

/-- `v?.trim()`: `none`-chaining on nullish, `.error` (`TypeError`) when
`v` is a non-string non-nullish value (it has no `trim` method). -/
def optChainTrim : JSValue → Except Unit (Option String)
  | .undefined => .ok none
  | .null => .ok none
  | .str s => .ok (some (jsTrim s))
  | _ => .error ()

/-- First index of `c` in `cs` (`String.prototype.indexOf`). -/
def firstIdxOf (cs : List Char) (c : Char) : Option Nat :=
  cs.findIdx? (· == c)

/-- Last index of `c` in `cs` (`String.prototype.lastIndexOf`). -/
def lastIdxOf (cs : List Char) (c : Char) : Option Nat :=
  match cs.reverse.findIdx? (· == c) with
  | some i => some (cs.length - 1 - i)
  | none => none

/-- Keep only the content between the first `{` and the last `}`
(`evaluateAnswer.ts`, Gemini variant, lines 210-215). -/
def braceSlice (s : String) : String :=
  let cs := s.toList
  match firstIdxOf cs (Char.ofNat 123), lastIdxOf cs (Char.ofNat 125) with
  | some i, some j => if i < j then String.mk ((cs.drop i).take (j + 1 - i)) else s
  | _, _ => s

/-- `replace(/^```[a-zA-Z]*\s*/, "")`, applied under a `startsWith "```"`
guard: drop the fence, a language tag, and following whitespace. -/
def stripFenceOpen (s : String) : String :=
  String.mk (((s.toList.drop 3).dropWhile Char.isAlpha).dropWhile jsWsChar)

/-- `replace(/```$/, "")`: drop a trailing fence if present. -/
def stripFenceClose (s : String) : String :=
  if s.endsWith "```" then String.mk (s.toList.take (s.toList.length - 3)) else s

/-- The raw-text cleanup of the Gemini `evaluateAnswer` variant
(lines 199-215): trim, strip a surrounding code fence, then slice
between the first `{` and the last `}`. -/
def cleanGeminiText (text : String) : String :=
  let t := jsTrim text
  let t := if t.startsWith "```" then jsTrim (stripFenceClose (stripFenceOpen t)) else t
  braceSlice t

/-- JSON whitespace (exactly space, tab, line feed, carriage return). -/
def jsonWs (c : Char) : Bool :=
  c == ' ' || c == '\t' || c == '\n' || c == '\r'

/-- Skip JSON whitespace. -/
def skipWs (cs : List Char) : List Char := cs.dropWhile jsonWs

/-- A JSON number: `-? (0 | [1-9][0-9]*) frac? exp?`, returning the
remainder of the input. -/
def pJsonNumber (cs : List Char) : Option (ℚ × List Char) :=
  let (neg, cs1) :=
    match cs with
    | '-' :: t => (true, t)
    | t => (false, t)
  let ipOpt : Option (List Char × List Char) :=
    match cs1 with
    | '0' :: t => some (['0'], t)
    | c :: _ =>
        if '1' ≤ c && c ≤ '9' then
          let (ds, t) := takeDigits cs1
          some (ds, t)
        else none
    | [] => none
  match ipOpt with
  | none => none
  | some (ip, r1) =>
      let fpOpt : Option (List Char × List Char) :=
        match r1 with
        | '.' :: t =>
            let (ds, t2) := takeDigits t
            if ds.isEmpty then none else some (ds, t2)
        | _ => some ([], r1)
      match fpOpt with
      | none => none
      | some (fp, r2) =>
          let expOpt : Option (ℤ × List Char) :=
            match r2 with
            | e :: t =>
                if e == 'e' || e == 'E' then
                  let (sgn, t2) :=
                    match t with
                    | '+' :: u => ((1 : ℤ), u)
                    | '-' :: u => ((-1 : ℤ), u)
                    | u => ((1 : ℤ), u)
                  let (ds, t3) := takeDigits t2
                  if ds.isEmpty then none else some (sgn * (digitsToNat ds : ℤ), t3)
                else some (0, r2)
            | [] => some (0, r2)
          match expOpt with
          | none => none
          | some (ex, r3) =>
              let mantissa : ℚ :=
                (digitsToNat ip : ℚ) + (digitsToNat fp : ℚ) / (10 : ℚ) ^ fp.length
              let q := mantissa * (10 : ℚ) ^ ex
              some (if neg then -q else q, r3)

/-- A JSON string body after the opening quote, with the standard
escapes.  Lone surrogates from `\u` escapes are replaced by U+FFFD
(Lean's `Char` cannot hold them; unexercised by the handlers). -/
def pJsonString (fuel : Nat) (cs : List Char) (acc : List Char) :
    Option (String × List Char) :=
  match fuel, cs with
  | 0, _ => none
  | _, [] => none
  | f + 1, c :: rest =>
    if c == Char.ofNat 34 then some (String.mk acc.reverse, rest)
    else if c == Char.ofNat 92 then
      match rest with
      | [] => none
      | e :: rest2 =>
        if e == Char.ofNat 34 then pJsonString f rest2 (Char.ofNat 34 :: acc)
        else if e == Char.ofNat 92 then pJsonString f rest2 (Char.ofNat 92 :: acc)
        else if e == '/' then pJsonString f rest2 ('/' :: acc)
        else if e == 'b' then pJsonString f rest2 (Char.ofNat 8 :: acc)
        else if e == 'f' then pJsonString f rest2 (Char.ofNat 12 :: acc)
        else if e == 'n' then pJsonString f rest2 ('\n' :: acc)
        else if e == 'r' then pJsonString f rest2 (Char.ofNat 13 :: acc)
        else if e == 't' then pJsonString f rest2 ('\t' :: acc)
        else if e == 'u' then
          match rest2 with
          | a :: b :: c2 :: d :: rest3 =>
              match hexVal a, hexVal b, hexVal c2, hexVal d with
              | some ha, some hb, some hc, some hd =>
                  let n := ((ha * 16 + hb) * 16 + hc) * 16 + hd
                  if 55296 ≤ n && n ≤ 56319 then
                    match rest3 with
                    | b1 :: u2 :: a2 :: b2 :: c3 :: d2 :: rest4 =>
                        if b1 == Char.ofNat 92 && u2 == 'u' then
                          match hexVal a2, hexVal b2, hexVal c3, hexVal d2 with
                          | some ha2, some hb2, some hc2, some hd2 =>
                              let m := ((ha2 * 16 + hb2) * 16 + hc2) * 16 + hd2
                              if 56320 ≤ m && m ≤ 57343 then
                                let cp := 65536 + (n - 55296) * 1024 + (m - 56320)
                                pJsonString f rest4 (Char.ofNat cp :: acc)
                              else pJsonString f rest3 (Char.ofNat 65533 :: acc)
                          | _, _, _, _ => pJsonString f rest3 (Char.ofNat 65533 :: acc)
                        else pJsonString f rest3 (Char.ofNat 65533 :: acc)
                    | _ => pJsonString f rest3 (Char.ofNat 65533 :: acc)
                  else if 56320 ≤ n && n ≤ 57343 then
                    pJsonString f rest3 (Char.ofNat 65533 :: acc)
                  else pJsonString f rest3 (Char.ofNat n :: acc)
              | _, _, _, _ => none
          | _ => none
        else none
    else if c.toNat < 32 then none
    else pJsonString f rest (c :: acc)

mutual

/-- A JSON value; the input starts at the value (whitespace skipped). -/
def pJsonValue : Nat → List Char → Option (JSValue × List Char)
  | 0, _ => none
  | _ + 1, [] => none
  | f + 1, c :: rest =>
    if c == Char.ofNat 123 then
      let cs1 := skipWs rest
      match cs1 with
      | d :: rest2 =>
          if d == Char.ofNat 125 then some (.obj [], rest2)
          else (pJsonMembers f cs1).map fun (fs, r) => (.obj fs, r)
      | [] => none
    else if c == '[' then
      let cs1 := skipWs rest
      match cs1 with
      | d :: rest2 =>
          if d == ']' then some (.arr [], rest2)
          else (pJsonElems f cs1).map fun (xs, r) => (.arr xs, r)
      | [] => none
    else if c == Char.ofNat 34 then
      (pJsonString (f + 1) rest []).map fun (s, r) => (.str s, r)
    else if "true".toList.isPrefixOf (c :: rest) then
      some (.bool true, (c :: rest).drop 4)
    else if "false".toList.isPrefixOf (c :: rest) then
      some (.bool false, (c :: rest).drop 5)
    else if "null".toList.isPrefixOf (c :: rest) then
      some (.null, (c :: rest).drop 4)
    else
      (pJsonNumber (c :: rest)).map fun (q, r) => (.num (.fin q), r)

/-- One or more `"key": value` members, ending at the closing brace. -/
def pJsonMembers : Nat → List Char → Option (List (String × JSValue) × List Char)
  | 0, _ => none
  | _ + 1, [] => none
  | f + 1, c :: rest =>
    if c == Char.ofNat 34 then
      match pJsonString (f + 1) rest [] with
      | none => none
      | some (k, r1) =>
          match skipWs r1 with
          | ':' :: r2 =>
              match pJsonValue f (skipWs r2) with
              | none => none
              | some (v, r3) =>
                  match skipWs r3 with
                  | ',' :: r4 =>
                      (pJsonMembers f (skipWs r4)).map fun (fs, r5) => ((k, v) :: fs, r5)
                  | d :: r4 =>
                      if d == Char.ofNat 125 then some ([(k, v)], r4) else none
                  | [] => none
          | _ => none
    else none

/-- One or more array elements, ending at the closing bracket. -/
def pJsonElems : Nat → List Char → Option (List JSValue × List Char)
  | 0, _ => none
  | f + 1, cs =>
    match pJsonValue f cs with
    | none => none
    | some (v, r1) =>
        match skipWs r1 with
        | ',' :: r2 => (pJsonElems f (skipWs r2)).map fun (xs, r3) => (v :: xs, r3)
        | ']' :: r2 => some ([v], r2)
        | _ => none

end

/-- `JSON.parse`: `none` models a thrown `SyntaxError`.  The fuel
`2 * length + 16` strictly dominates the recursion depth, since every
level of descent consumes input. -/
def jsonParse (s : String) : Option JSValue :=
  let cs := skipWs s.toList
  match pJsonValue (2 * s.length + 16) cs with
  | some (v, r) => if (skipWs r).isEmpty then some v else none
  | none => none

/-! ## Domain records (the TypeScript record types of both endpoints) -/

/-- `EvaluationResult` (`result` is one of the three literal strings). -/
structure EvaluationResult where
  result : String
  score : JSNum
  feedbackSummary : String
deriving DecidableEq

/-- `ExerciseDefinition` (`exerciseType` is one of the four literals). -/
structure ExerciseDefinition where
  statement : String
  exerciseType : String
deriving DecidableEq

/-- `ALLOWED_RESULTS` from `evaluateAnswer.ts`. -/
def ALLOWED_RESULTS : List String := ["correct", "partial", "incorrect"]

/-- `allowedTypes` from the `generateExercise` variants. -/
def allowedTypes : List String :=
  ["basic_procedural", "mixed_rules", "applied_word_problem", "exam_multi_step"]

/-- The parsed JSON request body of `evaluateAnswer` (a missing field is
`undefined`; the handlers assume `req.body` is an object). -/
structure EvalRequestBody where
  statement : JSValue
  userAnswer : JSValue
  imageUrl : JSValue
  subtopicName : JSValue
  difficulty : JSValue
  exerciseIndex : JSValue

/-- The parsed JSON request body of `generateExercise`. -/
structure GenRequestBody where
  subtopicId : JSValue
  subtopicName : JSValue
  difficulty : JSValue
  exerciseIndex : JSValue

/-- The record produced by `fetchSubtopicContext` when the Supabase
lookup succeeds (its field mapping is glue over external data). -/
structure SubtopicCtx where
  subtopicName : String
  aiNotes : String
  topicName : Option String
  topicYear : Option Int
  topicCode : Option String

/-- The observable outcome of an image `fetch`: HTTP ok-ness, the
`content-type` header, and the body (already base64; the byte-level
encoding is elided, only emptiness and success are ever observed). -/
structure FetchResp where
  ok : Bool
  contentType : Option String
  bodyBase64 : String
deriving DecidableEq

/-- The HTTP outcome of a handler run: a response with a status and a
typed body, or an exception escaping the handler. -/
inductive HttpOutcome (β : Type) where
  | thrown
  | resp (status : Nat) (body : β)
deriving DecidableEq

/-- `evaluateAnswer` response body: a result record or `{ error }`. -/
inductive EvalPayload where
  | record (r : EvaluationResult)
  | error (msg : String)
deriving DecidableEq

/-- `generateExercise` response body: an exercise or `{ error }`. -/
inductive GenPayload where
  | exercise (d : ExerciseDefinition)
  | error (msg : String)
deriving DecidableEq

/-- A full `evaluateAnswer` run: outcome plus which externals ran. -/
structure EvalResult where
  http : HttpOutcome EvalPayload
  fetchCalled : Bool
  completionCalled : Bool
deriving DecidableEq

/-- A full `generateExercise` run: outcome plus completion-call flag. -/
structure GenResult where
  http : HttpOutcome GenPayload
  completionCalled : Bool
deriving DecidableEq

/-! ## Shared helpers of the handlers -/

/-- `getFallbackEvaluation` (`evaluateAnswer.ts` lines 14-36, identical
in all three variants). -/
def getFallbackEvaluation (exerciseIndex : JSNum) : EvaluationResult :=
  if numEqLit exerciseIndex 1 then
    ⟨"correct", .fin 100, "Bom trabalho! Acertaste este exercício."⟩
  else if numEqLit exerciseIndex 2 then
    ⟨"partial", .fin 60,
      "Quase lá. Vale a pena rever alguns passos deste tipo de exercício."⟩
  else
    ⟨"incorrect", .fin 20,
      "A tua resolução ainda precisa de reforço neste tipo de exercício."⟩

/-- `sanitizeExerciseIndex` (identical in every variant).  The declared
TS domain is `number | undefined`, but the handlers pass the raw JSON
body field through unchecked, so the embedding takes any `JSValue`;
the comparisons and `Math.floor` coerce via `ToNumber`. -/
def sanitizeExerciseIndex (index : JSValue) : JSNum :=
  if jsFalsy index || numberIsNaN index then .fin 1
  else if jsLt (jsToNumber index) (.fin 1) then .fin 1
  else if jsLt (.fin 3) (jsToNumber index) then .fin 3
  else jsFloor (jsToNumber index)

/-- `localFallback` (`generateExercise.ts` lines 38-60; the same records
appear in the hint variant and the OpenAI generate variant). -/
def localFallback (exerciseIndex : JSNum) : ExerciseDefinition :=
  if numEqLit exerciseIndex 1 then
    ⟨"Considera a função f(x) = 2x³ - 5x² + 3x - 1.\nCalcula f\x27(x).",
      "basic_procedural"⟩
  else if numEqLit exerciseIndex 2 then
    ⟨"Seja g(x) = (3x² + 1)·e^\x7b2x\x7d.\nCalcula g\x27(x) usando as regras do produto e, se necessário, da cadeia.",
      "mixed_rules"⟩
  else
    ⟨"Numa prova de Matemática, a função h(x) = (4x - 3)·ln(x) modela uma certa grandeza.\nCalcula h\x27(x).",
      "applied_word_problem"⟩

/-- `localFallback` of the index-validating `generateExercise` variant
(`evaluateAnswer.ts` part 5, lines 920-944). -/
def localFallbackValidated (exerciseIndex : JSNum) : ExerciseDefinition :=
  if numEqLit exerciseIndex 1 then
    ⟨"1) Considere a função f(x) = 3x² - 5x + 2.\nCalcula f\x27(x).",
      "basic_procedural"⟩
  else if numEqLit exerciseIndex 2 then
    ⟨"2) Considere g(x) = (2x + 1) · e^\x7bx²\x7d.\nUsa regras do produto e da cadeia para calcular g\x27(x).",
      "mixed_rules"⟩
  else
    ⟨"3) Num exercício de exame, a função h modela o lucro diário:\nh(x) = (4x - 3) · e^\x7b0.5x\x7d, onde x é o número de unidades produzidas.\nDetermina h\x27(x) e interpreta o seu significado.",
      "applied_word_problem"⟩

/-- `pickExerciseType` of the Supabase variant (`generateExercise.ts`
lines 62-89).  `(subtopicName || "").toLowerCase()` throws a
`TypeError` (`.error`) when the argument is truthy but not a string. -/
def pickExerciseTypeSupabase (subtopicName difficulty : JSValue)
    (exerciseIndex : JSNum) : Except Unit String :=
  match jsOr subtopicName (.str "") with
  | .str s =>
      .ok <|
        if strIncludes (jsToLower s) "resolução de problemas" || strIncludes (jsToLower s) "modelação" then
          if numEqLit exerciseIndex 3 then "exam_multi_step" else "applied_word_problem"
        else if jsStrictEqStr difficulty "easy" then "basic_procedural"
        else if jsStrictEqStr difficulty "hard" then
          if numEqLit exerciseIndex 3 then "exam_multi_step" else "mixed_rules"
        else if numEqLit exerciseIndex 1 then "basic_procedural"
        else if numEqLit exerciseIndex 2 then "mixed_rules"
        else "applied_word_problem"
  | _ => .error ()

/-- `pickExerciseType` of the OpenAI generate variant
(`evaluateAnswer.ts` part 4, lines 730-755); its caller always passes a
defined string. -/
def pickExerciseTypeSimple (subtopicName : String) (difficulty : JSValue)
    (exerciseIndex : JSNum) : String :=
  if strIncludes (jsToLower subtopicName) "problema" ||
      strIncludes (jsToLower subtopicName) "aplicado" then "applied_word_problem"
  else if jsStrictEqStr difficulty "easy" then "basic_procedural"
  else if jsStrictEqStr difficulty "hard" then
    if numEqLit exerciseIndex 3 then "exam_multi_step" else "mixed_rules"
  else if numEqLit exerciseIndex 1 then "basic_procedural"
  else "mixed_rules"

/-- `chooseExerciseTypeHint` (`generateExercise.ts` lines 322-340). -/
def chooseExerciseTypeHint (exerciseIndex : JSNum) (difficulty : String) : String :=
  if numEqLit exerciseIndex 1 then "basic_procedural"
  else if numEqLit exerciseIndex 2 then "mixed_rules"
  else if difficulty == "hard" then "exam_multi_step"
  else "applied_word_problem"

/-- `difficulty === "easy" || difficulty === "hard" ? difficulty :
"medium"` (hint variant, line 358-359). -/
def diffNarrow (difficulty : JSValue) : String :=
  if jsStrictEqStr difficulty "easy" then "easy"
  else if jsStrictEqStr difficulty "hard" then "hard"
  else "medium"

/-- `ctx?.subtopicName || body.subtopicName || "Subtema de derivadas"`
(Supabase variant, line 155). -/
def subtopicLabelG1 (ctx : Option SubtopicCtx) (bodySubtopicName : JSValue) : JSValue :=
  jsOr
    (jsOr (match ctx with | some c => .str c.subtopicName | none => .undefined)
      bodySubtopicName)
    (.str "Subtema de derivadas")

/-- The test `!v || typeof v !== "string" || !v.trim()` used on
`statement` and `imageUrl`. -/
def missingOrBlankString (v : JSValue) : Bool :=
  jsFalsy v ||
  (match v with
   | .str s => jsTrim s == ""
   | _ => true)

/-- `!process.env.KEY`: the credential is absent or empty. -/
def envKeyMissing : Option String → Bool
  | none => true
  | some s => s == ""

/-- `list.includes(v)` for a string list (`===` semantics). -/
def includesStr (l : List String) (v : JSValue) : Bool :=
  match v with
  | .str s => l.contains s
  | _ => false

/-- The string payload of a value known to be a string. -/
def asString : JSValue → String
  | .str s => s
  | _ => ""

/-- Is the value `undefined` (the only case where a destructuring
default applies)? -/
def isUndefined : JSValue → Bool
  | .undefined => true
  | _ => false

/-- The field validation of the two Gemini `evaluateAnswer` variants
(lines 229-236 and 667-674): allowed result label, finite coerced
score, non-blank string feedback. -/
def geminiIsValid (p : JSValue) : Bool :=
  includesStr ALLOWED_RESULTS (getField p "result") &&
  jsFinite (jsToNumber (getField p "score")) &&
  (match getField p "feedbackSummary" with
   | .str s => jsTrim s != ""
   | _ => false)

/-- The success output of the Gemini variants (lines 243-249 and
680-688): parsed result, rounded score clamped into `[0,100]`, trimmed
feedback. -/
def geminiOutput (p : JSValue) : EvaluationResult :=
  ⟨asString (getField p "result"),
   jsMax (.fin 0) (jsMin (.fin 100) (jsRound (jsToNumber (getField p "score")))),
   jsTrim (asString (getField p "feedbackSummary"))⟩

/-- The field validation of the OpenAI `evaluateAnswer` variant (lines
434-440): allowed result, number-typed finite score already inside
`[0,100]`, non-empty string feedback (no trimming). -/
def openaiIsValid (p : JSValue) : Bool :=
  includesStr ALLOWED_RESULTS (getField p "result") &&
  (match getField p "score" with
   | .num (.fin q) => decide (0 ≤ q) && decide (q ≤ 100)
   | _ => false) &&
  (match getField p "feedbackSummary" with
   | .str s => s != ""
   | _ => false)

/-- The success output of the OpenAI variant (lines 447-451): every
field exactly as parsed — no rounding, no clamping, no trimming. -/
def openaiOutput (p : JSValue) : EvaluationResult :=
  ⟨asString (getField p "result"),
   (match getField p "score" with | .num n => n | _ => .nan),
   asString (getField p "feedbackSummary")⟩

/-- `typeof s === "string" && s.trim().length > 0 ? s.trim() :
fallback.statement` (the generate variants that trim). -/
def statementOrFallback (fallbackStatement : String) (v : JSValue) : String :=
  match v with
  | .str s => if jsTrim s != "" then jsTrim s else fallbackStatement
  | _ => fallbackStatement

/-- Same test, but the validating variant returns the statement
untrimmed (`evaluateAnswer.ts` lines 994-997). -/
def statementOrFallbackRaw (fallbackStatement : String) (v : JSValue) : String :=
  match v with
  | .str s => if jsTrim s != "" then s else fallbackStatement
  | _ => fallbackStatement

/-- `allowedTypes.includes(parsed.exerciseType) ? parsed.exerciseType :
hint` (every generate variant, with its own `hint`). -/
def typeOrHint (hint : String) (v : JSValue) : String :=
  match v with
  | .str t => if allowedTypes.contains t then t else hint
  | _ => hint

/-! ## The `evaluateAnswer` handlers

Prompt assembly and the MIME-type computation are elided: they feed
only the external completion call, which enters the model as an oracle
(`completion`), so they do not influence any observable output. -/

/-- A 200 response carrying the fallback evaluation for `idx`, with the
two external-call flags. -/
def evalFallbackResp (idx : JSNum) (f c : Bool) : EvalResult :=
  ⟨.resp 200 (.record (getFallbackEvaluation idx)), f, c⟩

/-- `completion.choices[0]?.message?.content || "{}"`. -/
def rawOrEmptyObj (content : Option String) : String :=
  match content with
  | some s => if s == "" then "\x7b\x7d" else s
  | none => "\x7b\x7d"

/-- `subtopicName?.trim() || "Derivadas"`, after the optional chain. -/
def subOrDefault (subOpt : Option String) : String :=
  match subOpt with
  | some s => if s == "" then "Derivadas" else s
  | none => "Derivadas"

/-- The outer-catch response of every `generateExercise` variant with
the shared fallback table: `200` with `localFallback(1)`. -/
def genCatchResp (c : Bool) : GenResult :=
  ⟨.resp 200 (.exercise (localFallback (.fin 1))), c⟩

/-- The outer-catch response of the index-validating variant. -/
def genCatchRespV (c : Bool) : GenResult :=
  ⟨.resp 200 (.exercise (localFallbackValidated (.fin 1))), c⟩

/-- `evaluateAnswer.ts`, part 1 (Gemini `@google/generative-ai`,
lines 45-256).  `userAnswer.toString()` sits outside every
`try`/`catch`, so a `null` `userAnswer` escapes as a `TypeError`. -/
def handlerEvaluateGemini (method : String) (body : EvalRequestBody)
    (apiKey : Option String) (imageFetch : Except Unit FetchResp)
    (completion : Except Unit (Option String)) : EvalResult :=
  if method ≠ "POST" then
    ⟨.resp 405 (.error "Method not allowed"), false, false⟩
  else if missingOrBlankString body.statement then
    evalFallbackResp (sanitizeExerciseIndex body.exerciseIndex) false false
  else if missingOrBlankString body.imageUrl then
    evalFallbackResp (sanitizeExerciseIndex body.exerciseIndex) false false
  else if envKeyMissing apiKey then
    evalFallbackResp (sanitizeExerciseIndex body.exerciseIndex) false false
  else
    match jsToStringMethod (if isUndefined body.userAnswer then .str "" else body.userAnswer) with
    | none => ⟨.thrown, false, false⟩
    | some _trimmedAnswer =>
      match imageFetch with
      | .error _ => evalFallbackResp (sanitizeExerciseIndex body.exerciseIndex) true false
      | .ok fr =>
        if !fr.ok then
          evalFallbackResp (sanitizeExerciseIndex body.exerciseIndex) true false
        else if fr.bodyBase64 == "" then
          evalFallbackResp (sanitizeExerciseIndex body.exerciseIndex) true false
        else
          match completion with
          | .error _ => evalFallbackResp (sanitizeExerciseIndex body.exerciseIndex) true true
          | .ok content =>
            if content.getD "" == "" then
              evalFallbackResp (sanitizeExerciseIndex body.exerciseIndex) true true
            else
              match jsonParse (cleanGeminiText (content.getD "")) with
              | none => evalFallbackResp (sanitizeExerciseIndex body.exerciseIndex) true true
              | some parsed =>
                match parsed with
                | .null => evalFallbackResp (sanitizeExerciseIndex body.exerciseIndex) true true
                | p =>
                  if geminiIsValid p then
                    ⟨.resp 200 (.record (geminiOutput p)), true, true⟩
                  else evalFallbackResp (sanitizeExerciseIndex body.exerciseIndex) true true

/-- `evaluateAnswer.ts`, part 2 (OpenAI, lines 305-458): no text
cleanup (`response_format: json_object`), range-validated score passed
through unrounded, feedback unvalidated for blanks and untrimmed. -/
def handlerEvaluateOpenAI (method : String) (body : EvalRequestBody)
    (apiKey : Option String) (imageFetch : Except Unit FetchResp)
    (completion : Except Unit (Option String)) : EvalResult :=
  if method ≠ "POST" then
    ⟨.resp 405 (.error "Method not allowed"), false, false⟩
  else if missingOrBlankString body.statement then
    evalFallbackResp (sanitizeExerciseIndex body.exerciseIndex) false false
  else if missingOrBlankString body.imageUrl then
    evalFallbackResp (sanitizeExerciseIndex body.exerciseIndex) false false
  else if envKeyMissing apiKey then
    evalFallbackResp (sanitizeExerciseIndex body.exerciseIndex) false false
  else
    match jsToStringMethod (if isUndefined body.userAnswer then .str "" else body.userAnswer) with
    | none => ⟨.thrown, false, false⟩
    | some _trimmedAnswer =>
      match imageFetch with
      | .error _ => evalFallbackResp (sanitizeExerciseIndex body.exerciseIndex) true false
      | .ok fr =>
        if !fr.ok then
          evalFallbackResp (sanitizeExerciseIndex body.exerciseIndex) true false
        else
          match completion with
          | .error _ => evalFallbackResp (sanitizeExerciseIndex body.exerciseIndex) true true
          | .ok content =>
            if content.getD "" == "" then
              evalFallbackResp (sanitizeExerciseIndex body.exerciseIndex) true true
            else
              match jsonParse (content.getD "") with
              | none => evalFallbackResp (sanitizeExerciseIndex body.exerciseIndex) true true
              | some parsed =>
                match parsed with
                | .null => evalFallbackResp (sanitizeExerciseIndex body.exerciseIndex) true true
                | p =>
                  if openaiIsValid p then
                    ⟨.resp 200 (.record (openaiOutput p)), true, true⟩
                  else evalFallbackResp (sanitizeExerciseIndex body.exerciseIndex) true true

/-- `evaluateAnswer.ts`, part 3 (Gemini `@google/genai`, lines
503-695): like part 1 but without the code-fence cleanup and without
the empty-base64 re-check. -/
def handlerEvaluateGenAI (method : String) (body : EvalRequestBody)
    (apiKey : Option String) (imageFetch : Except Unit FetchResp)
    (completion : Except Unit (Option String)) : EvalResult :=
  if method ≠ "POST" then
    ⟨.resp 405 (.error "Method not allowed"), false, false⟩
  else if missingOrBlankString body.statement then
    evalFallbackResp (sanitizeExerciseIndex body.exerciseIndex) false false
  else if missingOrBlankString body.imageUrl then
    evalFallbackResp (sanitizeExerciseIndex body.exerciseIndex) false false
  else if envKeyMissing apiKey then
    evalFallbackResp (sanitizeExerciseIndex body.exerciseIndex) false false
  else
    match jsToStringMethod (if isUndefined body.userAnswer then .str "" else body.userAnswer) with
    | none => ⟨.thrown, false, false⟩
    | some _trimmedAnswer =>
      match imageFetch with
      | .error _ => evalFallbackResp (sanitizeExerciseIndex body.exerciseIndex) true false
      | .ok fr =>
        if !fr.ok then
          evalFallbackResp (sanitizeExerciseIndex body.exerciseIndex) true false
        else
          match completion with
          | .error _ => evalFallbackResp (sanitizeExerciseIndex body.exerciseIndex) true true
          | .ok content =>
            if content.getD "" == "" then
              evalFallbackResp (sanitizeExerciseIndex body.exerciseIndex) true true
            else
              match jsonParse (content.getD "") with
              | none => evalFallbackResp (sanitizeExerciseIndex body.exerciseIndex) true true
              | some parsed =>
                match parsed with
                | .null => evalFallbackResp (sanitizeExerciseIndex body.exerciseIndex) true true
                | p =>
                  if geminiIsValid p then
                    ⟨.resp 200 (.record (geminiOutput p)), true, true⟩
                  else evalFallbackResp (sanitizeExerciseIndex body.exerciseIndex) true true

/-! ## The `generateExercise` handlers

In every variant the whole body sits inside one big `try` whose `catch`
answers `200` with `localFallback(1)`; a rejected external call or an
internal `TypeError` lands there. -/

/-- `generateExercise.ts`, part 1 (Supabase-context variant, lines
138-262). -/
def handlerGenerateSupabase (method : String) (body : GenRequestBody)
    (ctxFetch : Except Unit (Option SubtopicCtx))
    (completion : Except Unit (Option String)) : GenResult :=
  if method ≠ "POST" then ⟨.resp 405 (.error "Method Not Allowed"), false⟩
  else
    match ctxFetch with
    | .error _ => genCatchResp false
    | .ok ctx =>
      match pickExerciseTypeSupabase (subtopicLabelG1 ctx body.subtopicName)
          (jsOr body.difficulty (.str "medium"))
          (sanitizeExerciseIndex body.exerciseIndex) with
      | .error _ => genCatchResp false
      | .ok exerciseType =>
        match completion with
        | .error _ => genCatchResp true
        | .ok content =>
          match jsonParse (rawOrEmptyObj content) with
          | none =>
              ⟨.resp 200 (.exercise (localFallback (sanitizeExerciseIndex body.exerciseIndex))), true⟩
          | some parsed =>
            match parsed with
            | .null => genCatchResp true
            | p =>
                ⟨.resp 200 (.exercise
                  ⟨statementOrFallback
                      (localFallback (sanitizeExerciseIndex body.exerciseIndex)).statement
                      (getField p "statement"),
                   typeOrHint exerciseType (getField p "exerciseType")⟩), true⟩

/-- `generateExercise.ts`, part 2 (hint variant, lines 344-481; the
trimmed subtopic feeds only the prompt). -/
def handlerGenerateHint (method : String) (body : GenRequestBody)
    (completion : Except Unit (Option String)) : GenResult :=
  if method ≠ "POST" then ⟨.resp 405 (.error "Method Not Allowed"), false⟩
  else
    match optChainTrim body.subtopicName with
    | .error _ => genCatchResp false
    | .ok _subOpt =>
      match completion with
      | .error _ => genCatchResp true
      | .ok content =>
        match jsonParse (rawOrEmptyObj content) with
        | none =>
            ⟨.resp 200 (.exercise (localFallback (sanitizeExerciseIndex body.exerciseIndex))), true⟩
        | some parsed =>
          match parsed with
          | .null => genCatchResp true
          | p =>
              ⟨.resp 200 (.exercise
                ⟨statementOrFallback
                    (localFallback (sanitizeExerciseIndex body.exerciseIndex)).statement
                    (getField p "statement"),
                 typeOrHint
                    (chooseExerciseTypeHint (sanitizeExerciseIndex body.exerciseIndex)
                      (diffNarrow body.difficulty))
                    (getField p "exerciseType")⟩), true⟩

/-- `evaluateAnswer.ts`, part 4 (OpenAI generate variant, lines
784-894). -/
def handlerGeneratePick (method : String) (body : GenRequestBody)
    (completion : Except Unit (Option String)) : GenResult :=
  if method ≠ "POST" then ⟨.resp 405 (.error "Method Not Allowed"), false⟩
  else
    match optChainTrim body.subtopicName with
    | .error _ => genCatchResp false
    | .ok subOpt =>
      match completion with
      | .error _ => genCatchResp true
      | .ok content =>
        match jsonParse (rawOrEmptyObj content) with
        | none =>
            ⟨.resp 200 (.exercise (localFallback (sanitizeExerciseIndex body.exerciseIndex))), true⟩
        | some parsed =>
          match parsed with
          | .null => genCatchResp true
          | p =>
              ⟨.resp 200 (.exercise
                ⟨statementOrFallback
                    (localFallback (sanitizeExerciseIndex body.exerciseIndex)).statement
                    (getField p "statement"),
                 typeOrHint
                    (pickExerciseTypeSimple (subOrDefault subOpt)
                      (jsOr body.difficulty (.str "medium"))
                      (sanitizeExerciseIndex body.exerciseIndex))
                    (getField p "exerciseType")⟩), true⟩

/-- `evaluateAnswer.ts`, part 5 (index-validating generate variant,
lines 946-1016).  The validation is `typeof exerciseIndex !== "number"
|| exerciseIndex < 1 || exerciseIndex > 3`; `JSON.parse` is *not*
wrapped in an inner `try`, so a parse failure reaches the outer catch
(`localFallback(1)`), and the fallback uses the raw, unsanitised
index. -/
def handlerGenerateValidated (method : String) (body : GenRequestBody)
    (completion : Except Unit (Option String)) : GenResult :=
  if method ≠ "POST" then ⟨.resp 405 (.error "Method Not Allowed"), false⟩
  else
    match body.exerciseIndex with
    | .num n =>
        if jsLt n (.fin 1) || jsLt (.fin 3) n then
          ⟨.resp 400 (.error "exerciseIndex must be 1, 2 or 3"), false⟩
        else
          match completion with
          | .error _ => genCatchRespV true
          | .ok content =>
            match jsonParse (rawOrEmptyObj content) with
            | none => genCatchRespV true
            | some parsed =>
              match parsed with
              | .null => genCatchRespV true
              | p =>
                  ⟨.resp 200 (.exercise
                    ⟨statementOrFallbackRaw (localFallbackValidated n).statement
                        (getField p "statement"),
                     typeOrHint (localFallbackValidated n).exerciseType
                        (getField p "exerciseType")⟩), true⟩
    | _ => ⟨.resp 400 (.error "exerciseIndex must be 1, 2 or 3"), false⟩

/-! ## Schema well-formedness and HTTP-boundary predicates -/

/-- The score is a finite number inside `[0, 100]`. -/
def scoreOkB : JSNum → Bool
  | .fin q => decide (0 ≤ q) && decide (q ≤ 100)
  | _ => false

/-- A schema-valid `EvaluationResult`: allowed result label, finite
score in `[0, 100]`, non-empty feedback string. -/
def wfEvalB (r : EvaluationResult) : Bool :=
  ALLOWED_RESULTS.contains r.result && scoreOkB r.score && r.feedbackSummary != ""

/-- A schema-valid `ExerciseDefinition`: non-empty statement, allowed
exercise type. -/
def wfExerciseB (d : ExerciseDefinition) : Bool :=
  d.statement != "" && allowedTypes.contains d.exerciseType

/-- An `evaluateAnswer` run kept to the claimed HTTP boundary: nothing
thrown, only a 405 error or a 200 with a schema-valid record. -/
def evalStatusesOK (r : EvalResult) : Bool :=
  match r.http with
  | .thrown => false
  | .resp s p =>
      match p with
      | .record rec => s == 200 && wfEvalB rec
      | .error _ => s == 405

/-- Same for a clamping `generateExercise` run (only 405 and 200). -/
def genStatusesOK (r : GenResult) : Bool :=
  match r.http with
  | .thrown => false
  | .resp s p =>
      match p with
      | .exercise d => s == 200 && wfExerciseB d
      | .error _ => s == 405

/-- Same for the index-validating variant, where 400 is also legal. -/
def genStatusesOKV (r : GenResult) : Bool :=
  match r.http with
  | .thrown => false
  | .resp s p =>
      match p with
      | .exercise d => s == 200 && wfExerciseB d
      | .error _ => s == 405 || s == 400

/-- Is the value a number or missing — the declared TS domain
(`number | undefined`) of `sanitizeExerciseIndex`? -/
def numOrMissing : JSValue → Bool
  | .undefined => true
  | .num _ => true
  | _ => false

/-- Is the number exactly `1`, `2`, or `3`? -/
def isOneTwoThree (n : JSNum) : Bool :=
  n == .fin 1 || n == .fin 2 || n == .fin 3

/-- Does the parsed `exerciseType` field pass
`allowedTypes.includes(...)` (a string among the four literals)? -/
def typeFieldOk (v : JSValue) : Bool :=
  match v with
  | .str t => allowedTypes.contains t
  | _ => false

/-- Does the parsed `statement` field pass
`typeof === "string" && trim().length > 0`? -/
def statementFieldOk (v : JSValue) : Bool :=
  match v with
  | .str s => jsTrim s != ""
  | _ => false

/-! ## Supporting lemmas -/

theorem typeOrHint_of_invalid {hint : String} {v : JSValue}
    (h : typeFieldOk v = false) : typeOrHint hint v = hint := by
  cases v <;> simp_all [typeFieldOk, typeOrHint]

theorem typeOrHint_of_valid {hint ty : String}
    (h : allowedTypes.contains ty = true) : typeOrHint hint (.str ty) = ty := by
  simp only [typeOrHint, h, if_true]

theorem statementOrFallback_of_invalid {fb : String} {v : JSValue}
    (h : statementFieldOk v = false) : statementOrFallback fb v = fb := by
  cases v <;> simp_all [statementFieldOk, statementOrFallback]

theorem statementOrFallback_of_valid {fb s : String}
    (h : jsTrim s ≠ "") : statementOrFallback fb (.str s) = jsTrim s := by
  simp [statementOrFallback, h]

theorem wf_getFallbackEvaluation (i : JSNum) :
    wfEvalB (getFallbackEvaluation i) = true := by
  unfold getFallbackEvaluation
  split
  · decide
  split
  · decide
  · decide

theorem wf_localFallback (i : JSNum) :
    wfExerciseB (localFallback i) = true := by
  unfold localFallback
  split
  · decide
  split
  · decide
  · decide

theorem wf_localFallbackValidated (i : JSNum) :
    wfExerciseB (localFallbackValidated i) = true := by
  unfold localFallbackValidated
  split
  · decide
  split
  · decide
  · decide

theorem localFallback_statement_ne (i : JSNum) :
    (localFallback i).statement ≠ "" := by
  unfold localFallback
  split
  · decide
  split
  · decide
  · decide

theorem localFallbackValidated_statement_ne (i : JSNum) :
    (localFallbackValidated i).statement ≠ "" := by
  unfold localFallbackValidated
  split
  · decide
  split
  · decide
  · decide

theorem includesStr_asString {l : List String} {v : JSValue}
    (h : includesStr l v = true) : l.contains (asString v) = true := by
  cases v <;> simp_all [includesStr, asString]

theorem clamp_scoreOk {n : JSNum} (h : jsFinite n = true) :
    scoreOkB (jsMax (.fin 0) (jsMin (.fin 100) (jsRound n))) = true := by
  cases n <;> simp_all [jsFinite]
  rename_i q
  show scoreOkB (jsMax (.fin 0) (jsMin (.fin 100) (.fin (Rat.floor (q + 1/2) : ℚ)))) = true
  simp only [jsMin, jsMax, scoreOkB, Bool.and_eq_true, decide_eq_true_eq]
  constructor
  · exact le_max_left 0 _
  · exact max_le (by norm_num) (min_le_left _ _)

theorem geminiValid_output_wf {p : JSValue} (h : geminiIsValid p = true) :
    wfEvalB (geminiOutput p) = true := by
  simp only [geminiIsValid, Bool.and_eq_true] at h
  obtain ⟨⟨h1, h2⟩, h3⟩ := h
  simp only [wfEvalB, geminiOutput, Bool.and_eq_true]
  refine ⟨⟨includesStr_asString h1, clamp_scoreOk h2⟩, ?_⟩
  revert h3
  cases hf : getField p "feedbackSummary" <;> simp_all [asString]

theorem openaiValid_output_wf {p : JSValue} (h : openaiIsValid p = true) :
    wfEvalB (openaiOutput p) = true := by
  simp only [openaiIsValid, Bool.and_eq_true] at h
  obtain ⟨⟨h1, h2⟩, h3⟩ := h
  simp only [wfEvalB, openaiOutput, Bool.and_eq_true]
  refine ⟨⟨includesStr_asString h1, ?_⟩, ?_⟩
  · revert h2
    cases hs : getField p "score" with
    | num n => cases n <;> simp_all [scoreOkB]
    | _ => simp_all
  · revert h3
    cases hf : getField p "feedbackSummary" <;> simp_all [asString]

theorem typeOrHint_mem {hint : String} (v : JSValue)
    (h : allowedTypes.contains hint = true) :
    allowedTypes.contains (typeOrHint hint v) = true := by
  cases v <;> simp only [typeOrHint]
  all_goals try exact h
  rename_i t
  split <;> simp_all

theorem pickSupabase_ok_mem {a b : JSValue} {i : JSNum} {t : String}
    (h : pickExerciseTypeSupabase a b i = .ok t) :
    allowedTypes.contains t = true := by
  unfold pickExerciseTypeSupabase at h
  revert h
  split
  · intro h
    injection h with h
    subst h
    repeat' split
    all_goals decide
  · intro h
    cases h

theorem pickSimple_mem (s : String) (d : JSValue) (i : JSNum) :
    allowedTypes.contains (pickExerciseTypeSimple s d i) = true := by
  unfold pickExerciseTypeSimple
  repeat' split
  all_goals decide

theorem chooseHint_mem (i : JSNum) (d : String) :
    allowedTypes.contains (chooseExerciseTypeHint i d) = true := by
  unfold chooseExerciseTypeHint
  repeat' split
  all_goals decide

theorem statementOrFallback_ne {fb : String} (hfb : fb ≠ "") (v : JSValue) :
    statementOrFallback fb v ≠ "" := by
  cases v <;> simp only [statementOrFallback]
  all_goals try exact hfb
  rename_i s
  split <;> simp_all

theorem jsTrim_of_empty : jsTrim "" = "" := rfl

theorem statementOrFallbackRaw_ne {fb : String} (hfb : fb ≠ "") (v : JSValue) :
    statementOrFallbackRaw fb v ≠ "" := by
  cases v <;> simp only [statementOrFallbackRaw]
  all_goals try exact hfb
  rename_i s
  split
  · rename_i hs
    intro hemp
    subst hemp
    simp [jsTrim_of_empty] at hs
  · exact hfb

theorem jsToStringMethod_default_some {v : JSValue} (h : v ≠ .null) :
    ∃ t, jsToStringMethod (if isUndefined v then .str "" else v) = some t := by
  cases v <;> simp_all [isUndefined, jsToStringMethod]

theorem numEqLit_eq_false {i : JSNum} {q : ℚ} (h : i ≠ .fin q) :
    numEqLit i q = false := by
  cases i <;> simp_all [numEqLit]

theorem wfExercise_parts {a b : String} (h1 : a ≠ "")
    (h2 : allowedTypes.contains b = true) : wfExerciseB ⟨a, b⟩ = true := by
  simp only [wfExerciseB, Bool.and_eq_true]
  refine ⟨?_, h2⟩
  simp [h1]

theorem localFallbackValidated_type_mem (i : JSNum) :
    allowedTypes.contains (localFallbackValidated i).exerciseType = true := by
  unfold localFallbackValidated
  split
  · decide
  split
  · decide
  · decide

/-! ## HTTP-boundary lemmas, one per handler variant -/

set_option maxHeartbeats 1000000 in
theorem evalGemini_statusesOK (m : String) (b : EvalRequestBody) (k : Option String)
    (f : Except Unit FetchResp) (c : Except Unit (Option String))
    (h : b.userAnswer ≠ .null) :
    evalStatusesOK (handlerEvaluateGemini m b k f c) = true := by
  obtain ⟨t, hts⟩ := jsToStringMethod_default_some h
  unfold handlerEvaluateGemini
  simp only [hts]
  repeat' split
  all_goals first
    | rfl
    | (simp only [evalFallbackResp, evalStatusesOK]
       simp [wf_getFallbackEvaluation]
       done)
    | (simp only [evalStatusesOK]
       rw [geminiValid_output_wf (by assumption)]
       rfl)

set_option maxHeartbeats 1000000 in
theorem evalOpenAI_statusesOK (m : String) (b : EvalRequestBody) (k : Option String)
    (f : Except Unit FetchResp) (c : Except Unit (Option String))
    (h : b.userAnswer ≠ .null) :
    evalStatusesOK (handlerEvaluateOpenAI m b k f c) = true := by
  obtain ⟨t, hts⟩ := jsToStringMethod_default_some h
  unfold handlerEvaluateOpenAI
  simp only [hts]
  repeat' split
  all_goals first
    | rfl
    | (simp only [evalFallbackResp, evalStatusesOK]
       simp [wf_getFallbackEvaluation]
       done)
    | (simp only [evalStatusesOK]
       rw [openaiValid_output_wf (by assumption)]
       rfl)

set_option maxHeartbeats 1000000 in
theorem evalGenAI_statusesOK (m : String) (b : EvalRequestBody) (k : Option String)
    (f : Except Unit FetchResp) (c : Except Unit (Option String))
    (h : b.userAnswer ≠ .null) :
    evalStatusesOK (handlerEvaluateGenAI m b k f c) = true := by
  obtain ⟨t, hts⟩ := jsToStringMethod_default_some h
  unfold handlerEvaluateGenAI
  simp only [hts]
  repeat' split
  all_goals first
    | rfl
    | (simp only [evalFallbackResp, evalStatusesOK]
       simp [wf_getFallbackEvaluation]
       done)
    | (simp only [evalStatusesOK]
       rw [geminiValid_output_wf (by assumption)]
       rfl)

set_option maxHeartbeats 1000000 in
theorem genSupabase_statusesOK (m : String) (b : GenRequestBody)
    (cx : Except Unit (Option SubtopicCtx)) (c : Except Unit (Option String)) :
    genStatusesOK (handlerGenerateSupabase m b cx c) = true := by
  unfold handlerGenerateSupabase
  repeat' split
  all_goals first
    | rfl
    | (simp only [genStatusesOK]
       simp [wf_localFallback]
       done)
    | (simp only [genStatusesOK]
       rw [wfExercise_parts (statementOrFallback_ne (localFallback_statement_ne _) _)
            (typeOrHint_mem _ (pickSupabase_ok_mem (by assumption)))]
       rfl)

set_option maxHeartbeats 1000000 in
theorem genHint_statusesOK (m : String) (b : GenRequestBody)
    (c : Except Unit (Option String)) :
    genStatusesOK (handlerGenerateHint m b c) = true := by
  unfold handlerGenerateHint
  repeat' split
  all_goals first
    | rfl
    | (simp only [genStatusesOK]
       simp [wf_localFallback]
       done)
    | (simp only [genStatusesOK]
       rw [wfExercise_parts (statementOrFallback_ne (localFallback_statement_ne _) _)
            (typeOrHint_mem _ (chooseHint_mem _ _))]
       rfl)

set_option maxHeartbeats 1000000 in
theorem genPick_statusesOK (m : String) (b : GenRequestBody)
    (c : Except Unit (Option String)) :
    genStatusesOK (handlerGeneratePick m b c) = true := by
  unfold handlerGeneratePick
  repeat' split
  all_goals first
    | rfl
    | (simp only [genStatusesOK]
       simp [wf_localFallback]
       done)
    | (simp only [genStatusesOK]
       rw [wfExercise_parts (statementOrFallback_ne (localFallback_statement_ne _) _)
            (typeOrHint_mem _ (pickSimple_mem _ _ _))]
       rfl)

set_option maxHeartbeats 1000000 in
theorem genValidated_statusesOK (m : String) (b : GenRequestBody)
    (c : Except Unit (Option String)) :
    genStatusesOKV (handlerGenerateValidated m b c) = true := by
  unfold handlerGenerateValidated
  repeat' split
  all_goals first
    | rfl
    | (simp only [genStatusesOKV]
       rw [wfExercise_parts (statementOrFallbackRaw_ne (localFallbackValidated_statement_ne _) _)
            (typeOrHint_mem _ (localFallbackValidated_type_mem _))]
       rfl)

/-- `sanitizeExerciseIndex` lands in `{1,2,3}` on every number-or-missing
input. -/
theorem sanitize_numOrMissing_mem (v : JSValue) (hv : numOrMissing v = true) :
    isOneTwoThree (sanitizeExerciseIndex v) = true := by
  cases v with
  | undefined => decide
  | num n =>
    cases n with
    | nan => decide
    | inf => decide
    | negInf => decide
    | fin q =>
      unfold sanitizeExerciseIndex
      split
      · decide
      split
      · decide
      split
      · decide
      rename_i h1 h2 h3
      simp only [jsToNumber, jsLt, decide_eq_true_eq] at h2 h3
      push_neg at h2 h3
      have hq1 : (1 : ℤ) ≤ Rat.floor q := Rat.le_floor.mpr (by exact_mod_cast h2)
      have hq3 : Rat.floor q ≤ 3 := by
        by_contra hc
        push_neg at hc
        have h4 : (4 : ℤ) ≤ Rat.floor q := by omega
        have := Rat.le_floor.mp h4
        push_cast at this
        linarith
      have : Rat.floor q = 1 ∨ Rat.floor q = 2 ∨ Rat.floor q = 3 := by omega
      simp only [jsToNumber, jsFloor]
      rcases this with h | h | h <;> rw [h] <;> norm_num [isOneTwoThree]
  | null => simp [numOrMissing] at hv
  | bool b => simp [numOrMissing] at hv
  | str s => simp [numOrMissing] at hv
  | arr xs => simp [numOrMissing] at hv
  | obj fs => simp [numOrMissing] at hv

/-! ## Claim theorems -/

/-- C2: the fallback records are pure functions of the exercise index
alone — index `1` is the fixed `correct`/`100` evaluation (resp. the
`basic_procedural` exercise), index `2` the fixed `partial`/`60`
(resp. `mixed_rules`) one, and every other index, `3` included, the
fixed `incorrect`/`20` (resp. `applied_word_problem`) one; being Lean
functions, repeated invocation is identical by construction. -/
theorem C2_fallback_pure_function_of_index :
    getFallbackEvaluation (.fin 1) =
      ⟨"correct", .fin 100, "Bom trabalho! Acertaste este exercício."⟩
    ∧ getFallbackEvaluation (.fin 2) =
      ⟨"partial", .fin 60,
        "Quase lá. Vale a pena rever alguns passos deste tipo de exercício."⟩
    ∧ (∀ i : JSNum, i ≠ .fin 1 → i ≠ .fin 2 →
        getFallbackEvaluation i =
          ⟨"incorrect", .fin 20,
            "A tua resolução ainda precisa de reforço neste tipo de exercício."⟩)
    ∧ localFallback (.fin 1) =
      ⟨"Considera a função f(x) = 2x³ - 5x² + 3x - 1.\nCalcula f\x27(x).",
        "basic_procedural"⟩
    ∧ localFallback (.fin 2) =
      ⟨"Seja g(x) = (3x² + 1)·e^\x7b2x\x7d.\nCalcula g\x27(x) usando as regras do produto e, se necessário, da cadeia.",
        "mixed_rules"⟩
    ∧ (∀ i : JSNum, i ≠ .fin 1 → i ≠ .fin 2 →
        localFallback i =
          ⟨"Numa prova de Matemática, a função h(x) = (4x - 3)·ln(x) modela uma certa grandeza.\nCalcula h\x27(x).",
            "applied_word_problem"⟩) := by
  refine ⟨rfl, rfl, fun i h1 h2 => ?_, rfl, rfl, fun i h1 h2 => ?_⟩
  · simp [getFallbackEvaluation, numEqLit_eq_false h1, numEqLit_eq_false h2]
  · simp [localFallback, numEqLit_eq_false h1, numEqLit_eq_false h2]

/-- Witness for C2 at the concrete indices `NaN` and `7`. -/
theorem C2_fallback_pure_function_of_index_witness :
    getFallbackEvaluation .nan =
      ⟨"incorrect", .fin 20,
        "A tua resolução ainda precisa de reforço neste tipo de exercício."⟩
    ∧ localFallback (.fin 7) =
      ⟨"Numa prova de Matemática, a função h(x) = (4x - 3)·ln(x) modela uma certa grandeza.\nCalcula h\x27(x).",
        "applied_word_problem"⟩ :=
  ⟨C2_fallback_pure_function_of_index.2.2.1 .nan (by decide) (by decide),
   C2_fallback_pure_function_of_index.2.2.2.2.2 (.fin 7) (by decide) (by decide)⟩

/-- C3 counterexample: the claim promises that every non-numeric input
sanitizes to `1`, but the string `"abc"` (which `!index` and
`Number.isNaN` both miss) coerces to `NaN` under the comparisons and
`Math.floor`, so sanitization returns `NaN`, not an integer in
`{1,2,3}`. -/
theorem C3_counterexample_nonnumeric_string :
    sanitizeExerciseIndex (.str "abc") = .nan
    ∧ isOneTwoThree (sanitizeExerciseIndex (.str "abc")) = false := by
  exact ⟨by decide, by decide⟩

/-- C3 (amended): on every *number-or-missing* input — the declared TS
domain of `sanitizeExerciseIndex` — the result is an integer in
`{1,2,3}`: missing and `NaN` map to `1`, numbers below `1` map to `1`,
numbers above `3` map to `3`, and in-range numbers are floored.  (On
non-numeric runtime values such as the string `"abc"` the function can
instead return `NaN`, per the counterexample.) -/
theorem C3_amended_sanitize_clamps_numbers :
    (∀ v, numOrMissing v = true → isOneTwoThree (sanitizeExerciseIndex v) = true)
    ∧ (∀ n, jsLt n (.fin 1) = true → sanitizeExerciseIndex (.num n) = .fin 1)
    ∧ (∀ n, jsLt (.fin 3) n = true → sanitizeExerciseIndex (.num n) = .fin 3)
    ∧ (∀ q : ℚ, 1 ≤ q → q ≤ 3 →
        sanitizeExerciseIndex (.num (.fin q)) = .fin (Rat.floor q : ℚ))
    ∧ sanitizeExerciseIndex .undefined = .fin 1
    ∧ sanitizeExerciseIndex (.num .nan) = .fin 1 := by
  refine ⟨sanitize_numOrMissing_mem, fun n hn => ?_, fun n hn => ?_, fun q hq1 hq3 => ?_,
    rfl, rfl⟩
  · cases n with
    | nan => simp [jsLt] at hn
    | inf => simp [jsLt] at hn
    | negInf => decide
    | fin q =>
      unfold sanitizeExerciseIndex
      split
      · rfl
      split
      · rfl
      · rename_i hlt
        exact absurd hn hlt
  · cases n with
    | nan => simp [jsLt] at hn
    | negInf => simp [jsLt] at hn
    | inf => decide
    | fin q =>
      simp only [jsLt, decide_eq_true_eq] at hn
      have hq : ¬ q = 0 := by intro h; subst h; linarith
      unfold sanitizeExerciseIndex
      split
      · rename_i h0
        exfalso
        revert h0
        simp [jsFalsy, numFalsy, numberIsNaN, hq]
      split
      · rename_i hlt
        exfalso
        simp only [jsToNumber, jsLt, decide_eq_true_eq] at hlt
        linarith
      split
      · rfl
      · rename_i h3
        exfalso
        exact h3 (by simp [jsToNumber, jsLt, hn])
  · have hq : ¬ q = 0 := by intro h; subst h; linarith
    unfold sanitizeExerciseIndex
    split
    · rename_i h0
      exfalso
      revert h0
      simp [jsFalsy, numFalsy, numberIsNaN, hq]
    split
    · rename_i hlt
      exfalso
      simp only [jsToNumber, jsLt, decide_eq_true_eq] at hlt
      linarith
    split
    · rename_i h3
      exfalso
      simp only [jsToNumber, jsLt, decide_eq_true_eq] at h3
      linarith
    · rfl

/-- Witness for amended C3 at `2.5`, `0.5`, `7`, and the floored case. -/
theorem C3_amended_sanitize_clamps_numbers_witness :
    isOneTwoThree (sanitizeExerciseIndex (.num (.fin (5/2)))) = true
    ∧ sanitizeExerciseIndex (.num (.fin (1/2))) = .fin 1
    ∧ sanitizeExerciseIndex (.num (.fin 7)) = .fin 3
    ∧ sanitizeExerciseIndex (.num (.fin (5/2))) = .fin (Rat.floor (5/2 : ℚ) : ℚ) :=
  ⟨C3_amended_sanitize_clamps_numbers.1 _ (by with_unfolding_all decide),
   C3_amended_sanitize_clamps_numbers.2.1 _ (by with_unfolding_all decide),
   C3_amended_sanitize_clamps_numbers.2.2.1 _ (by with_unfolding_all decide),
   C3_amended_sanitize_clamps_numbers.2.2.2.1 (5/2) (by norm_num) (by norm_num)⟩

set_option maxHeartbeats 2000000 in
set_option maxRecDepth 8000 in
/-- C6: a completion text wrapped in a ```json code fence, with the
score given as the string `"85"`, is cleaned to exactly the unwrapped
object (fence stripped, then the substring between the first `{` and
the last `}` extracted), parses identically, and produces the same
handler output with score `85`. -/
theorem C6_code_fence_round_trip :
    cleanGeminiText "```json\n\x7b\"result\":\"partial\",\"score\":\"85\",\"feedbackSummary\":\"Quase.\"\x7d\n```" =
      "\x7b\"result\":\"partial\",\"score\":\"85\",\"feedbackSummary\":\"Quase.\"\x7d"
    ∧ handlerEvaluateGemini "POST"
        ⟨.str "Deriva x.", .undefined, .str "http://img", .undefined, .undefined, .undefined⟩
        (some "key") (.ok ⟨true, none, "imgdata"⟩)
        (.ok (some "```json\n\x7b\"result\":\"partial\",\"score\":\"85\",\"feedbackSummary\":\"Quase.\"\x7d\n```")) =
      handlerEvaluateGemini "POST"
        ⟨.str "Deriva x.", .undefined, .str "http://img", .undefined, .undefined, .undefined⟩
        (some "key") (.ok ⟨true, none, "imgdata"⟩)
        (.ok (some "\x7b\"result\":\"partial\",\"score\":\"85\",\"feedbackSummary\":\"Quase.\"\x7d"))
    ∧ (handlerEvaluateGemini "POST"
        ⟨.str "Deriva x.", .undefined, .str "http://img", .undefined, .undefined, .undefined⟩
        (some "key") (.ok ⟨true, none, "imgdata"⟩)
        (.ok (some "```json\n\x7b\"result\":\"partial\",\"score\":\"85\",\"feedbackSummary\":\"Quase.\"\x7d\n```"))).http =
      .resp 200 (.record ⟨"partial", .fin 85, "Quase."⟩) := by
  refine ⟨by with_unfolding_all decide, by with_unfolding_all decide,
    by with_unfolding_all decide⟩

set_option maxHeartbeats 2000000 in
set_option maxRecDepth 8000 in
/-- C9: the claim says every non-integer `exerciseIndex` gets a 400,
but the check `typeof !== "number" || < 1 || > 3` admits fractional
values and `NaN`: index `2.5` (and `NaN`) proceeds to the completion
call and is answered `200`, while `0` and the string `"2"` do get the
400 without a completion call.  The code's own error message,
`exerciseIndex must be 1, 2 or 3`, records the intent the check
misses. -/
theorem C9_fractional_index_escapes_validation :
    handlerGenerateValidated "POST" ⟨.undefined, .undefined, .undefined, .num (.fin (5/2))⟩
        (.ok (some "\x7b\x7d")) =
      ⟨.resp 200 (.exercise (localFallbackValidated (.fin (5/2)))), true⟩
    ∧ handlerGenerateValidated "POST" ⟨.undefined, .undefined, .undefined, .num (.fin 0)⟩
        (.ok (some "\x7b\x7d")) =
      ⟨.resp 400 (.error "exerciseIndex must be 1, 2 or 3"), false⟩
    ∧ handlerGenerateValidated "POST" ⟨.undefined, .undefined, .undefined, .str "2"⟩
        (.ok (some "\x7b\x7d")) =
      ⟨.resp 400 (.error "exerciseIndex must be 1, 2 or 3"), false⟩
    ∧ handlerGenerateValidated "POST" ⟨.undefined, .undefined, .undefined, .num .nan⟩
        (.ok (some "\x7b\x7d")) =
      ⟨.resp 200 (.exercise (localFallbackValidated .nan)), true⟩ := by
  refine ⟨by with_unfolding_all decide, by with_unfolding_all decide,
    by with_unfolding_all decide, by with_unfolding_all decide⟩

set_option maxHeartbeats 2000000 in
set_option maxRecDepth 8000 in
/-- C4 counterexample: the OpenAI `evaluateAnswer` variant answers a
schema-meeting completion (allowed label, finite score `85.5` in range,
non-empty feedback `" Boa! "`) with the score exactly as parsed — not
rounded to `86` — and the feedback untrimmed. -/
theorem C4_counterexample_openai_not_rounded :
    (handlerEvaluateOpenAI "POST"
        ⟨.str "Deriva x.", .undefined, .str "http://img", .undefined, .undefined, .undefined⟩
        (some "key") (.ok ⟨true, none, "imgdata"⟩)
        (.ok (some "\x7b\"result\":\"correct\",\"score\":85.5,\"feedbackSummary\":\" Boa! \"\x7d"))).http =
      .resp 200 (.record ⟨"correct", .fin (mkRat 171 2), " Boa! "⟩)
    ∧ JSNum.fin (mkRat 171 2) ≠
        jsMax (.fin 0) (jsMin (.fin 100) (jsRound (.fin (mkRat 171 2))))
    ∧ jsTrim " Boa! " ≠ " Boa! " := by
  refine ⟨by with_unfolding_all decide, by with_unfolding_all decide,
    by with_unfolding_all decide⟩

set_option maxHeartbeats 2000000 in
set_option maxRecDepth 8000 in
/-- C5 counterexample: `generateExercise` (Supabase variant) answers a
completion whose `statement` is valid but whose `exerciseType` is the
invalid `"bogus"` by *keeping* the parsed statement and substituting
only the type—not by returning the whole fallback record for the
sanitized index, which has a different statement. -/
theorem C5_counterexample_partial_field_kept :
    (handlerGenerateSupabase "POST" ⟨.undefined, .str "Derivadas", .undefined, .num (.fin 2)⟩
        (.ok none)
        (.ok (some "\x7b\"statement\":\"Deriva f.\",\"exerciseType\":\"bogus\"\x7d"))).http =
      .resp 200 (.exercise ⟨"Deriva f.", "mixed_rules"⟩)
    ∧ (⟨"Deriva f.", "mixed_rules"⟩ : ExerciseDefinition) ≠
        localFallback (sanitizeExerciseIndex (.num (.fin 2))) := by
  refine ⟨by with_unfolding_all decide, by with_unfolding_all decide⟩

/-- C7: an `evaluateAnswer` request whose statement or image URL is
missing, non-string, or blank after trimming, or for which the Gemini
credential is absent (or empty), is answered immediately with status
200 and the fallback record for the already-sanitized exercise index —
the image fetch and the completion call are both never performed. -/
theorem C7_missing_inputs_short_circuit (b : EvalRequestBody) (key : Option String)
    (f : Except Unit FetchResp) (c : Except Unit (Option String))
    (h : missingOrBlankString b.statement = true ∨ missingOrBlankString b.imageUrl = true ∨
         envKeyMissing key = true) :
    handlerEvaluateGemini "POST" b key f c =
      ⟨.resp 200 (.record (getFallbackEvaluation (sanitizeExerciseIndex b.exerciseIndex))),
       false, false⟩ := by
  cases hst : missingOrBlankString b.statement with
  | true => unfold handlerEvaluateGemini; simp [hst, evalFallbackResp]
  | false =>
    cases him : missingOrBlankString b.imageUrl with
    | true => unfold handlerEvaluateGemini; simp [hst, him, evalFallbackResp]
    | false =>
      have hk : envKeyMissing key = true := by
        rcases h with h | h | h
        · rw [hst] at h; cases h
        · rw [him] at h; cases h
        · exact h
      unfold handlerEvaluateGemini
      simp [hst, him, hk, evalFallbackResp]

/-- Witness for C7: an empty body and a missing credential. -/
theorem C7_missing_inputs_short_circuit_witness :
    handlerEvaluateGemini "POST" ⟨.undefined, .undefined, .undefined, .undefined, .undefined, .undefined⟩ none
        (.ok ⟨true, none, "d"⟩) (.ok (some "x")) =
      ⟨.resp 200 (.record (getFallbackEvaluation (sanitizeExerciseIndex .undefined))),
       false, false⟩ :=
  C7_missing_inputs_short_circuit _ _ _ _ (Or.inl rfl)

/-- C1: every response any handler variant explicitly produces is a 405
error, a 200 carrying a schema-valid record, or (index-validating
generate variant only) a 400 — no 5xx exists in the code.  The claim's
"regardless of input malformation" nevertheless fails: a `null`
`userAnswer` makes `evaluateAnswer` throw a `TypeError`
(`userAnswer.toString()` sits outside every `try`), which the
framework, not the handler, turns into a 500. -/
theorem C1_statuses_and_null_userAnswer_throw :
    (handlerEvaluateGemini "POST"
        ⟨.str "Deriva x.", .null, .str "http://img", .undefined, .undefined, .undefined⟩
        (some "key") (.ok ⟨true, none, "imgdata"⟩) (.ok (some "\x7b\x7d"))).http = .thrown
    ∧ (∀ m b k f c, b.userAnswer ≠ .null →
        evalStatusesOK (handlerEvaluateGemini m b k f c) = true)
    ∧ (∀ m b k f c, b.userAnswer ≠ .null →
        evalStatusesOK (handlerEvaluateOpenAI m b k f c) = true)
    ∧ (∀ m b k f c, b.userAnswer ≠ .null →
        evalStatusesOK (handlerEvaluateGenAI m b k f c) = true)
    ∧ (∀ m b cx c, genStatusesOK (handlerGenerateSupabase m b cx c) = true)
    ∧ (∀ m b c, genStatusesOK (handlerGenerateHint m b c) = true)
    ∧ (∀ m b c, genStatusesOK (handlerGeneratePick m b c) = true)
    ∧ (∀ m b c, genStatusesOKV (handlerGenerateValidated m b c) = true) :=
  ⟨by with_unfolding_all decide,
   evalGemini_statusesOK, evalOpenAI_statusesOK, evalGenAI_statusesOK,
   genSupabase_statusesOK, genHint_statusesOK, genPick_statusesOK,
   genValidated_statusesOK⟩

/-- Witness for C1 on a well-formed request (non-`null` answer). -/
theorem C1_statuses_and_null_userAnswer_throw_witness :
    evalStatusesOK (handlerEvaluateGemini "POST"
      ⟨.str "Deriva x.", .str "2x", .str "http://img", .undefined, .undefined, .undefined⟩
      (some "key") (.ok ⟨true, none, "imgdata"⟩) (.ok (some "nonsense"))) = true ∧
    genStatusesOK (handlerGenerateSupabase "POST"
      ⟨.undefined, .str "Derivadas", .undefined, .num (.fin 2)⟩ (.ok none) (.error ())) = true :=
  ⟨C1_statuses_and_null_userAnswer_throw.2.1 "POST" _ _ _ _
     (fun hn => JSValue.noConfusion hn),
   C1_statuses_and_null_userAnswer_throw.2.2.2.2.1 "POST" _ _ _⟩

/-- C10: whenever the completion call of a `generateExercise` variant
rejects, the outer catch answers 200 with the fallback for index `1`
(`basic_procedural`) — not the fallback for the request's own index,
which for index `3` would be a different record. -/
theorem C10_outer_catch_uses_index_one :
    (∀ b cx, (handlerGenerateSupabase "POST" b (.ok cx) (.error ())).http =
        .resp 200 (.exercise (localFallback (.fin 1))))
    ∧ (∀ b : GenRequestBody, (handlerGenerateHint "POST" b (.error ())).http =
        .resp 200 (.exercise (localFallback (.fin 1))))
    ∧ (∀ b : GenRequestBody, (handlerGeneratePick "POST" b (.error ())).http =
        .resp 200 (.exercise (localFallback (.fin 1))))
    ∧ (∀ (b : GenRequestBody) n, b.exerciseIndex = .num n →
        (jsLt n (.fin 1) || jsLt (.fin 3) n) = false →
        (handlerGenerateValidated "POST" b (.error ())).http =
          .resp 200 (.exercise (localFallbackValidated (.fin 1))))
    ∧ localFallback (.fin 1) ≠ localFallback (.fin 3)
    ∧ (localFallback (.fin 1)).exerciseType = "basic_procedural"
    ∧ (localFallbackValidated (.fin 1)).exerciseType = "basic_procedural" := by
  refine ⟨fun b cx => ?_, fun b => ?_, fun b => ?_, fun b n hb hrange => ?_,
    by with_unfolding_all decide, by with_unfolding_all decide,
    by with_unfolding_all decide⟩
  · unfold handlerGenerateSupabase
    rw [if_neg (fun hc : ("POST" : String) ≠ "POST" => hc rfl)]
    cases hp : pickExerciseTypeSupabase (subtopicLabelG1 cx b.subtopicName)
        (jsOr b.difficulty (.str "medium")) (sanitizeExerciseIndex b.exerciseIndex) with
    | error e => simp only [hp]; rfl
    | ok et => simp only [hp]; rfl
  · unfold handlerGenerateHint
    rw [if_neg (fun hc : ("POST" : String) ≠ "POST" => hc rfl)]
    cases hp : optChainTrim b.subtopicName with
    | error e => simp only [hp]; rfl
    | ok so => simp only [hp]; rfl
  · unfold handlerGeneratePick
    rw [if_neg (fun hc : ("POST" : String) ≠ "POST" => hc rfl)]
    cases hp : optChainTrim b.subtopicName with
    | error e => simp only [hp]; rfl
    | ok so => simp only [hp]; rfl
  · unfold handlerGenerateValidated
    rw [if_neg (fun hc : ("POST" : String) ≠ "POST" => hc rfl)]
    simp only [hb]
    rw [if_neg (by rw [hrange]; exact Bool.false_ne_true)]
    rfl

/-- Witness for C10 at index `3`, per the claim's own example. -/
theorem C10_outer_catch_uses_index_one_witness :
    (handlerGenerateValidated "POST" ⟨.undefined, .undefined, .undefined, .num (.fin 3)⟩
        (.error ())).http = .resp 200 (.exercise (localFallbackValidated (.fin 1)))
    ∧ (handlerGenerateSupabase "POST" ⟨.undefined, .undefined, .undefined, .num (.fin 3)⟩
        (.ok none) (.error ())).http = .resp 200 (.exercise (localFallback (.fin 1))) :=
  ⟨C10_outer_catch_uses_index_one.2.2.2.1 _ (.fin 3) rfl (by with_unfolding_all decide),
   C10_outer_catch_uses_index_one.1 _ none⟩

set_option maxHeartbeats 1000000 in
/-- C4 (amended): for a completion response that parses and passes the
variant's validation, the Gemini `evaluateAnswer` variant returns the
parsed fields with the score rounded to the nearest integer and
clamped into `[0,100]` and the feedback trimmed (`geminiOutput`),
while the OpenAI variant returns the parsed result, score and feedback
exactly as parsed (`openaiOutput`): its validation already confines
the score to `[0,100]` but it neither rounds the score nor trims the
feedback. -/
theorem C4_amended_valid_response_fields :
    (∀ (b : EvalRequestBody) (key : String) (fr : FetchResp) (text : String) (p : JSValue),
      missingOrBlankString b.statement = false →
      missingOrBlankString b.imageUrl = false →
      key ≠ "" → b.userAnswer ≠ .null →
      fr.ok = true → fr.bodyBase64 ≠ "" → text ≠ "" →
      jsonParse (cleanGeminiText text) = some p → p ≠ .null →
      geminiIsValid p = true →
      (handlerEvaluateGemini "POST" b (some key) (.ok fr) (.ok (some text))).http =
        .resp 200 (.record (geminiOutput p)))
    ∧ (∀ (b : EvalRequestBody) (key : String) (fr : FetchResp) (text : String) (p : JSValue),
      missingOrBlankString b.statement = false →
      missingOrBlankString b.imageUrl = false →
      key ≠ "" → b.userAnswer ≠ .null →
      fr.ok = true → text ≠ "" →
      jsonParse text = some p → p ≠ .null →
      openaiIsValid p = true →
      (handlerEvaluateOpenAI "POST" b (some key) (.ok fr) (.ok (some text))).http =
        .resp 200 (.record (openaiOutput p))) := by
  constructor
  · intro b key fr text p h1 h2 h3 h4 h5 h6 h7 h8 h9 h10
    obtain ⟨t, hts⟩ := jsToStringMethod_default_some h4
    unfold handlerEvaluateGemini
    rw [if_neg (fun hc : ("POST" : String) ≠ "POST" => hc rfl)]
    rw [if_neg (by rw [h1]; exact Bool.false_ne_true)]
    rw [if_neg (by rw [h2]; exact Bool.false_ne_true)]
    rw [if_neg (show ¬envKeyMissing (some key) = true by simp [envKeyMissing, h3])]
    simp only [hts]
    rw [if_neg (show ¬(!fr.ok) = true by simp [h5])]
    rw [if_neg (show ¬(fr.bodyBase64 == "") = true by simp [h6])]
    rw [show (some text : Option String).getD "" = text from rfl]
    rw [if_neg (show ¬(text == "") = true by simp [h7])]
    simp only [h8]
    cases p
    case null => exact absurd rfl h9
    all_goals (simp only [h10]; rfl)
  · intro b key fr text p h1 h2 h3 h4 h5 h7 h8 h9 h10
    obtain ⟨t, hts⟩ := jsToStringMethod_default_some h4
    unfold handlerEvaluateOpenAI
    rw [if_neg (fun hc : ("POST" : String) ≠ "POST" => hc rfl)]
    rw [if_neg (by rw [h1]; exact Bool.false_ne_true)]
    rw [if_neg (by rw [h2]; exact Bool.false_ne_true)]
    rw [if_neg (show ¬envKeyMissing (some key) = true by simp [envKeyMissing, h3])]
    simp only [hts]
    rw [if_neg (show ¬(!fr.ok) = true by simp [h5])]
    rw [show (some text : Option String).getD "" = text from rfl]
    rw [if_neg (show ¬(text == "") = true by simp [h7])]
    simp only [h8]
    cases p
    case null => exact absurd rfl h9
    all_goals (simp only [h10]; rfl)

set_option maxHeartbeats 2000000 in
set_option maxRecDepth 8000 in
/-- Witness for amended C4: the same valid object — score the string
`"85"`, feedback `" Quase. "` — through both variants. -/
theorem C4_amended_valid_response_fields_witness :
    (handlerEvaluateGemini "POST"
        ⟨.str "Deriva x.", .undefined, .str "http://img", .undefined, .undefined, .undefined⟩
        (some "key") (.ok ⟨true, none, "imgdata"⟩)
        (.ok (some "\x7b\"result\":\"partial\",\"score\":\"85\",\"feedbackSummary\":\" Quase. \"\x7d"))).http =
      .resp 200 (.record (geminiOutput
        (.obj [("result", .str "partial"), ("score", .str "85"),
               ("feedbackSummary", .str " Quase. ")])))
    ∧ (handlerEvaluateOpenAI "POST"
        ⟨.str "Deriva x.", .undefined, .str "http://img", .undefined, .undefined, .undefined⟩
        (some "key") (.ok ⟨true, none, "imgdata"⟩)
        (.ok (some "\x7b\"result\":\"partial\",\"score\":85,\"feedbackSummary\":\" Quase. \"\x7d"))).http =
      .resp 200 (.record (openaiOutput
        (.obj [("result", .str "partial"), ("score", .num (.fin 85)),
               ("feedbackSummary", .str " Quase. ")]))) :=
  ⟨C4_amended_valid_response_fields.1 _ "key" _ _ _
      rfl rfl (by decide) (fun h => JSValue.noConfusion h)
      rfl (by decide) (by decide)
      (by with_unfolding_all rfl) (fun h => JSValue.noConfusion h)
      (by with_unfolding_all decide),
   C4_amended_valid_response_fields.2 _ "key" _ _ _
      rfl rfl (by decide) (fun h => JSValue.noConfusion h)
      rfl (by decide)
      (by with_unfolding_all rfl) (fun h => JSValue.noConfusion h)
      (by with_unfolding_all decide)⟩

set_option maxHeartbeats 1000000 in
/-- C5 (amended): `evaluateAnswer` substitutes the *whole* fallback
record on an unparsable or invalid completion; `generateExercise`
substitutes *per field*: an unparsable completion yields the whole
fallback for the sanitized index, but with a parsable object an
invalid `exerciseType` is replaced by the computed hint while a valid
`statement` is kept, and an invalid `statement` is replaced by the
fallback's statement while a valid `exerciseType` is kept. -/
theorem C5_amended_fallback_granularity :
    (∀ (b : EvalRequestBody) (key : String) (fr : FetchResp) (text : String),
      missingOrBlankString b.statement = false →
      missingOrBlankString b.imageUrl = false →
      key ≠ "" → b.userAnswer ≠ .null →
      fr.ok = true → fr.bodyBase64 ≠ "" → text ≠ "" →
      jsonParse (cleanGeminiText text) = none →
      (handlerEvaluateGemini "POST" b (some key) (.ok fr) (.ok (some text))).http =
        .resp 200 (.record (getFallbackEvaluation (sanitizeExerciseIndex b.exerciseIndex))))
    ∧ (∀ (b : EvalRequestBody) (key : String) (fr : FetchResp) (text : String) (p : JSValue),
      missingOrBlankString b.statement = false →
      missingOrBlankString b.imageUrl = false →
      key ≠ "" → b.userAnswer ≠ .null →
      fr.ok = true → fr.bodyBase64 ≠ "" → text ≠ "" →
      jsonParse (cleanGeminiText text) = some p →
      (p = .null ∨ geminiIsValid p = false) →
      (handlerEvaluateGemini "POST" b (some key) (.ok fr) (.ok (some text))).http =
        .resp 200 (.record (getFallbackEvaluation (sanitizeExerciseIndex b.exerciseIndex))))
    ∧ (∀ (b : GenRequestBody) (cx : Option SubtopicCtx) (et : String) (content : Option String),
      pickExerciseTypeSupabase (subtopicLabelG1 cx b.subtopicName)
        (jsOr b.difficulty (.str "medium")) (sanitizeExerciseIndex b.exerciseIndex) = .ok et →
      jsonParse (rawOrEmptyObj content) = none →
      (handlerGenerateSupabase "POST" b (.ok cx) (.ok content)).http =
        .resp 200 (.exercise (localFallback (sanitizeExerciseIndex b.exerciseIndex))))
    ∧ (∀ (b : GenRequestBody) (cx : Option SubtopicCtx) (et : String)
        (content : Option String) (p : JSValue) (s : String),
      pickExerciseTypeSupabase (subtopicLabelG1 cx b.subtopicName)
        (jsOr b.difficulty (.str "medium")) (sanitizeExerciseIndex b.exerciseIndex) = .ok et →
      jsonParse (rawOrEmptyObj content) = some p → p ≠ .null →
      getField p "statement" = .str s → jsTrim s ≠ "" →
      typeFieldOk (getField p "exerciseType") = false →
      (handlerGenerateSupabase "POST" b (.ok cx) (.ok content)).http =
        .resp 200 (.exercise ⟨jsTrim s, et⟩))
    ∧ (∀ (b : GenRequestBody) (cx : Option SubtopicCtx) (et : String)
        (content : Option String) (p : JSValue) (ty : String),
      pickExerciseTypeSupabase (subtopicLabelG1 cx b.subtopicName)
        (jsOr b.difficulty (.str "medium")) (sanitizeExerciseIndex b.exerciseIndex) = .ok et →
      jsonParse (rawOrEmptyObj content) = some p → p ≠ .null →
      statementFieldOk (getField p "statement") = false →
      getField p "exerciseType" = .str ty → allowedTypes.contains ty = true →
      (handlerGenerateSupabase "POST" b (.ok cx) (.ok content)).http =
        .resp 200 (.exercise
          ⟨(localFallback (sanitizeExerciseIndex b.exerciseIndex)).statement, ty⟩)) := by
  refine ⟨fun b key fr text h1 h2 h3 h4 h5 h6 h7 h8 => ?_,
    fun b key fr text p h1 h2 h3 h4 h5 h6 h7 h8 hinv => ?_,
    fun b cx et content hpick hparse => ?_,
    fun b cx et content p s hpick hparse hnull hstmt hns htype => ?_,
    fun b cx et content p ty hpick hparse hnull hstmt hty htymem => ?_⟩
  · obtain ⟨t, hts⟩ := jsToStringMethod_default_some h4
    unfold handlerEvaluateGemini
    rw [if_neg (fun hc : ("POST" : String) ≠ "POST" => hc rfl)]
    rw [if_neg (by rw [h1]; exact Bool.false_ne_true)]
    rw [if_neg (by rw [h2]; exact Bool.false_ne_true)]
    rw [if_neg (show ¬envKeyMissing (some key) = true by simp [envKeyMissing, h3])]
    simp only [hts]
    rw [if_neg (show ¬(!fr.ok) = true by simp [h5])]
    rw [if_neg (show ¬(fr.bodyBase64 == "") = true by simp [h6])]
    rw [show (some text : Option String).getD "" = text from rfl]
    rw [if_neg (show ¬(text == "") = true by simp [h7])]
    simp only [h8]
    rfl
  · obtain ⟨t, hts⟩ := jsToStringMethod_default_some h4
    unfold handlerEvaluateGemini
    rw [if_neg (fun hc : ("POST" : String) ≠ "POST" => hc rfl)]
    rw [if_neg (by rw [h1]; exact Bool.false_ne_true)]
    rw [if_neg (by rw [h2]; exact Bool.false_ne_true)]
    rw [if_neg (show ¬envKeyMissing (some key) = true by simp [envKeyMissing, h3])]
    simp only [hts]
    rw [if_neg (show ¬(!fr.ok) = true by simp [h5])]
    rw [if_neg (show ¬(fr.bodyBase64 == "") = true by simp [h6])]
    rw [show (some text : Option String).getD "" = text from rfl]
    rw [if_neg (show ¬(text == "") = true by simp [h7])]
    simp only [h8]
    rcases hinv with rfl | hfalse
    · rfl
    · cases p
      all_goals first
        | rfl
        | (simp only [hfalse]; rfl)
  · unfold handlerGenerateSupabase
    rw [if_neg (fun hc : ("POST" : String) ≠ "POST" => hc rfl)]
    simp only [hpick, hparse]
  · unfold handlerGenerateSupabase
    rw [if_neg (fun hc : ("POST" : String) ≠ "POST" => hc rfl)]
    simp only [hpick, hparse]
    cases p
    case null => exact absurd rfl hnull
    all_goals
      (rw [hstmt, statementOrFallback_of_valid hns, typeOrHint_of_invalid htype])
  · unfold handlerGenerateSupabase
    rw [if_neg (fun hc : ("POST" : String) ≠ "POST" => hc rfl)]
    simp only [hpick, hparse]
    cases p
    case null => exact absurd rfl hnull
    all_goals
      (rw [statementOrFallback_of_invalid hstmt, hty, typeOrHint_of_valid htymem])

set_option maxHeartbeats 2000000 in
set_option maxRecDepth 8000 in
/-- Witness for amended C5: an unparsable completion and an invalid
parsed object through `evaluateAnswer`; a mixed partially valid object
through `generateExercise`, both directions. -/
theorem C5_amended_fallback_granularity_witness :
    (handlerEvaluateGemini "POST"
        ⟨.str "Deriva x.", .undefined, .str "http://img", .undefined, .undefined, .num (.fin 2)⟩
        (some "key") (.ok ⟨true, none, "imgdata"⟩) (.ok (some "nonsense"))).http =
      .resp 200 (.record (getFallbackEvaluation
        (sanitizeExerciseIndex (.num (.fin 2)))))
    ∧ (handlerEvaluateGemini "POST"
        ⟨.str "Deriva x.", .undefined, .str "http://img", .undefined, .undefined, .num (.fin 2)⟩
        (some "key") (.ok ⟨true, none, "imgdata"⟩)
        (.ok (some "\x7b\"result\":\"maybe\"\x7d"))).http =
      .resp 200 (.record (getFallbackEvaluation
        (sanitizeExerciseIndex (.num (.fin 2)))))
    ∧ (handlerGenerateSupabase "POST" ⟨.undefined, .str "Derivadas", .undefined, .num (.fin 2)⟩
        (.ok none)
        (.ok (some "\x7b\"statement\":\"Deriva g.\",\"exerciseType\":\"bogus\"\x7d"))).http =
      .resp 200 (.exercise ⟨jsTrim "Deriva g.", "mixed_rules"⟩)
    ∧ (handlerGenerateSupabase "POST" ⟨.undefined, .str "Derivadas", .undefined, .num (.fin 2)⟩
        (.ok none)
        (.ok (some "\x7b\"statement\":\"  \",\"exerciseType\":\"exam_multi_step\"\x7d"))).http =
      .resp 200 (.exercise
        ⟨(localFallback (sanitizeExerciseIndex (.num (.fin 2)))).statement,
         "exam_multi_step"⟩) :=
  ⟨C5_amended_fallback_granularity.1 _ "key" _ _
      rfl rfl (by decide) (fun h => JSValue.noConfusion h)
      rfl (by decide) (by decide)
      (by with_unfolding_all rfl),
   C5_amended_fallback_granularity.2.1 _ "key" _ _
      (.obj [("result", .str "maybe")])
      rfl rfl (by decide) (fun h => JSValue.noConfusion h)
      rfl (by decide) (by decide)
      (by with_unfolding_all rfl)
      (Or.inr (by with_unfolding_all decide)),
   C5_amended_fallback_granularity.2.2.2.1 _ none "mixed_rules" _
      (.obj [("statement", .str "Deriva g."), ("exerciseType", .str "bogus")]) "Deriva g."
      (by with_unfolding_all rfl)
      (by with_unfolding_all rfl)
      (fun h => JSValue.noConfusion h) rfl
      (by with_unfolding_all decide)
      (by with_unfolding_all decide),
   C5_amended_fallback_granularity.2.2.2.2 _ none "mixed_rules" _
      (.obj [("statement", .str "  "), ("exerciseType", .str "exam_multi_step")])
      "exam_multi_step"
      (by with_unfolding_all rfl)
      (by with_unfolding_all rfl)
      (fun h => JSValue.noConfusion h)
      (by with_unfolding_all decide) rfl
      (by with_unfolding_all decide)⟩

set_option maxHeartbeats 1000000 in
/-- C8: in each `generateExercise` variant, when the parsed
`exerciseType` is not one of the four enumerated strings, the returned
`exerciseType` is the variant's computed replacement — the
subtopic/difficulty/index hint `pickExerciseTypeSupabase` in the
Supabase variant, the index/difficulty hint `chooseExerciseTypeHint`
in the hint variant, and the index-keyed fallback record's type in the
validating variant — and each replacement is itself one of the four
enumerated values. -/
theorem C8_invalid_type_replaced_by_hint :
    (∀ (b : GenRequestBody) (cx : Option SubtopicCtx) (et : String)
        (content : Option String) (p : JSValue),
      pickExerciseTypeSupabase (subtopicLabelG1 cx b.subtopicName)
        (jsOr b.difficulty (.str "medium")) (sanitizeExerciseIndex b.exerciseIndex) = .ok et →
      jsonParse (rawOrEmptyObj content) = some p → p ≠ .null →
      typeFieldOk (getField p "exerciseType") = false →
      (handlerGenerateSupabase "POST" b (.ok cx) (.ok content)).http =
        .resp 200 (.exercise
          ⟨statementOrFallback (localFallback (sanitizeExerciseIndex b.exerciseIndex)).statement
            (getField p "statement"), et⟩)
        ∧ allowedTypes.contains et = true)
    ∧ (∀ (b : GenRequestBody) (so : Option String) (content : Option String) (p : JSValue),
      optChainTrim b.subtopicName = .ok so →
      jsonParse (rawOrEmptyObj content) = some p → p ≠ .null →
      typeFieldOk (getField p "exerciseType") = false →
      (handlerGenerateHint "POST" b (.ok content)).http =
        .resp 200 (.exercise
          ⟨statementOrFallback (localFallback (sanitizeExerciseIndex b.exerciseIndex)).statement
            (getField p "statement"),
           chooseExerciseTypeHint (sanitizeExerciseIndex b.exerciseIndex)
             (diffNarrow b.difficulty)⟩)
        ∧ allowedTypes.contains (chooseExerciseTypeHint (sanitizeExerciseIndex b.exerciseIndex)
            (diffNarrow b.difficulty)) = true)
    ∧ (∀ (b : GenRequestBody) (n : JSNum) (content : Option String) (p : JSValue),
      b.exerciseIndex = .num n →
      (jsLt n (.fin 1) || jsLt (.fin 3) n) = false →
      jsonParse (rawOrEmptyObj content) = some p → p ≠ .null →
      typeFieldOk (getField p "exerciseType") = false →
      (handlerGenerateValidated "POST" b (.ok content)).http =
        .resp 200 (.exercise
          ⟨statementOrFallbackRaw (localFallbackValidated n).statement (getField p "statement"),
           (localFallbackValidated n).exerciseType⟩)
        ∧ allowedTypes.contains (localFallbackValidated n).exerciseType = true) := by
  refine ⟨fun b cx et content p hpick hparse hnull htype => ?_,
    fun b so content p hsub hparse hnull htype => ?_,
    fun b n content p hb hrange hparse hnull htype => ?_⟩
  · refine ⟨?_, pickSupabase_ok_mem hpick⟩
    unfold handlerGenerateSupabase
    rw [if_neg (fun hc : ("POST" : String) ≠ "POST" => hc rfl)]
    simp only [hpick, hparse]
    cases p
    case null => exact absurd rfl hnull
    all_goals rw [typeOrHint_of_invalid htype]
  · refine ⟨?_, chooseHint_mem _ _⟩
    unfold handlerGenerateHint
    rw [if_neg (fun hc : ("POST" : String) ≠ "POST" => hc rfl)]
    simp only [hsub, hparse]
    cases p
    case null => exact absurd rfl hnull
    all_goals rw [typeOrHint_of_invalid htype]
  · refine ⟨?_, localFallbackValidated_type_mem _⟩
    unfold handlerGenerateValidated
    rw [if_neg (fun hc : ("POST" : String) ≠ "POST" => hc rfl)]
    simp only [hb]
    rw [if_neg (by rw [hrange]; exact Bool.false_ne_true)]
    simp only [hparse]
    cases p
    case null => exact absurd rfl hnull
    all_goals rw [typeOrHint_of_invalid htype]

set_option maxHeartbeats 2000000 in
set_option maxRecDepth 8000 in
/-- Witness for C8: the object `{"exerciseType":"bogus"}` through all
three variants at index 2 (hint variant at difficulty `hard`). -/
theorem C8_invalid_type_replaced_by_hint_witness :
    (handlerGenerateSupabase "POST" ⟨.undefined, .str "Derivadas", .undefined, .num (.fin 2)⟩
        (.ok none) (.ok (some "\x7b\"exerciseType\":\"bogus\"\x7d"))).http =
      .resp 200 (.exercise
        ⟨statementOrFallback
          (localFallback (sanitizeExerciseIndex (.num (.fin 2)))).statement
          (getField (.obj [("exerciseType", .str "bogus")]) "statement"), "mixed_rules"⟩)
    ∧ (handlerGenerateHint "POST" ⟨.undefined, .str "Derivadas", .str "hard", .num (.fin 2)⟩
        (.ok (some "\x7b\"exerciseType\":\"bogus\"\x7d"))).http =
      .resp 200 (.exercise
        ⟨statementOrFallback
          (localFallback (sanitizeExerciseIndex (.num (.fin 2)))).statement
          (getField (.obj [("exerciseType", .str "bogus")]) "statement"),
         chooseExerciseTypeHint (sanitizeExerciseIndex (.num (.fin 2)))
           (diffNarrow (.str "hard"))⟩)
    ∧ (handlerGenerateValidated "POST" ⟨.undefined, .undefined, .undefined, .num (.fin 2)⟩
        (.ok (some "\x7b\"exerciseType\":\"bogus\"\x7d"))).http =
      .resp 200 (.exercise
        ⟨statementOrFallbackRaw (localFallbackValidated (.fin 2)).statement
          (getField (.obj [("exerciseType", .str "bogus")]) "statement"),
         (localFallbackValidated (.fin 2)).exerciseType⟩) :=
  ⟨(C8_invalid_type_replaced_by_hint.1 _ none "mixed_rules" _
      (.obj [("exerciseType", .str "bogus")])
      (by with_unfolding_all rfl)
      (by with_unfolding_all rfl)
      (fun h => JSValue.noConfusion h)
      (by with_unfolding_all decide)).1,
   (C8_invalid_type_replaced_by_hint.2.1 _ (some "Derivadas") _
      (.obj [("exerciseType", .str "bogus")])
      (by with_unfolding_all rfl)
      (by with_unfolding_all rfl)
      (fun h => JSValue.noConfusion h)
      (by with_unfolding_all decide)).1,
   (C8_invalid_type_replaced_by_hint.2.2 _ (.fin 2) _
      (.obj [("exerciseType", .str "bogus")])
      rfl
      (by with_unfolding_all decide)
      (by with_unfolding_all rfl)
      (fun h => JSValue.noConfusion h)
      (by with_unfolding_all decide)).1⟩

end Wolfi
